import Mathlib

/-!
Verification of the Herkulex DRS-0x01 serial servo driver (message builder,
acknowledgement parser, register address tables) against its specification.

The Rust source is shallowly embedded: machine bytes are `Nat` values < 256,
`u8` arithmetic carries explicit masks, fallible or panicking code returns
`Option`.  A `none` result of a step models a Rust panic or a missing match
arm (a non-exhaustive `match`), i.e. an execution for which the source
defines no result.
-/

namespace Drs

/-- All the RAM (volatile) memory addresses which can be read
(`addr.rs`, `enum ReadableRamAddr`). -/
inductive ReadableRamAddr
  | ID
  | AckPolicy
  | AlarmLEDPolicy
  | TorquePolicy
  | MaxTemperature
  | MinVoltage
  | MaxVoltage
  | AccelerationRatio
  | MaxAcceleration
  | DeadZone
  | SaturatorOffset
  | SaturatorSlope
  | PWMOffset
  | MinPWM
  | MaxPWM
  | OverloadPWMThreshold
  | MinPosition
  | MaxPosition
  | PositionKp
  | PositionKd
  | PositionKi
  | PositionFFFirstGain
  | PositionFFSecondGain
  | LedBlinkPeriod
  | ADCFaultDetectionPeriod
  | PacketGarbageDetectionPeriod
  | StopDetectionPeriod
  | OverloadDetectionPeriod
  | StopThreshold
  | InpositionMargin
  | CalibrationDifference
  | StatusError
  | StatusDetail
  | TorqueControl
  | LEDControl
  | Voltage
  | Temperature
  | CurrentControlMode
  | Tick
  | CalibratedPosition
  | AbsolutePosition
  | DifferentialPosition
  | PWM
  | AbsoluteGoalPosition
  | AbsoluteDesiredTrajectoryPosition
  | DesiredVelocity
  deriving DecidableEq, Repr

/-- Source `ReadableRamAddr::bytes`: size in bytes of the value stored at this address. -/
def ReadableRamAddr.bytes : ReadableRamAddr → Nat
  | .ID => 1
  | .AckPolicy => 1
  | .AlarmLEDPolicy => 1
  | .TorquePolicy => 1
  | .MaxTemperature => 1
  | .MinVoltage => 1
  | .MaxVoltage => 1
  | .AccelerationRatio => 1
  | .MaxAcceleration => 1
  | .DeadZone => 1
  | .SaturatorOffset => 1
  | .SaturatorSlope => 2
  | .PWMOffset => 1
  | .MinPWM => 1
  | .MaxPWM => 2
  | .OverloadPWMThreshold => 2
  | .MinPosition => 2
  | .MaxPosition => 2
  | .PositionKp => 2
  | .PositionKd => 2
  | .PositionKi => 2
  | .PositionFFFirstGain => 2
  | .PositionFFSecondGain => 2
  | .LedBlinkPeriod => 1
  | .ADCFaultDetectionPeriod => 1
  | .PacketGarbageDetectionPeriod => 1
  | .StopDetectionPeriod => 1
  | .OverloadDetectionPeriod => 1
  | .StopThreshold => 1
  | .InpositionMargin => 1
  | .CalibrationDifference => 1
  | .StatusError => 1
  | .StatusDetail => 1
  | .TorqueControl => 1
  | .LEDControl => 1
  | .Voltage => 2
  | .Temperature => 2
  | .CurrentControlMode => 2
  | .Tick => 2
  | .CalibratedPosition => 2
  | .AbsolutePosition => 2
  | .DifferentialPosition => 2
  | .PWM => 2
  | .AbsoluteGoalPosition => 2
  | .AbsoluteDesiredTrajectoryPosition => 2
  | .DesiredVelocity => 1

/-- Source `impl From<ReadableRamAddr> for u8`: the wire address byte. -/
def ReadableRamAddr.toByte : ReadableRamAddr → Nat
  | .ID => 0
  | .AckPolicy => 1
  | .AlarmLEDPolicy => 2
  | .TorquePolicy => 3
  | .MaxTemperature => 5
  | .MinVoltage => 6
  | .MaxVoltage => 7
  | .AccelerationRatio => 8
  | .MaxAcceleration => 9
  | .DeadZone => 10
  | .SaturatorOffset => 11
  | .SaturatorSlope => 12
  | .PWMOffset => 14
  | .MinPWM => 15
  | .MaxPWM => 16
  | .OverloadPWMThreshold => 18
  | .MinPosition => 20
  | .MaxPosition => 22
  | .PositionKp => 24
  | .PositionKd => 26
  | .PositionKi => 28
  | .PositionFFFirstGain => 30
  | .PositionFFSecondGain => 32
  | .LedBlinkPeriod => 38
  | .ADCFaultDetectionPeriod => 39
  | .PacketGarbageDetectionPeriod => 40
  | .StopDetectionPeriod => 41
  | .OverloadDetectionPeriod => 42
  | .StopThreshold => 43
  | .InpositionMargin => 44
  | .CalibrationDifference => 47
  | .StatusError => 48
  | .StatusDetail => 49
  | .TorqueControl => 52
  | .LEDControl => 53
  | .Voltage => 54
  | .Temperature => 55
  | .CurrentControlMode => 56
  | .Tick => 57
  | .CalibratedPosition => 58
  | .AbsolutePosition => 60
  | .DifferentialPosition => 62
  | .PWM => 64
  | .AbsoluteGoalPosition => 68
  | .AbsoluteDesiredTrajectoryPosition => 70
  | .DesiredVelocity => 72

/-- Source `impl TryFrom<u8> for ReadableRamAddr`.  The source `match` lists only the
bytes below and has NO catch-all arm (it is a non-exhaustive `match` on `u8`):
for every other byte the source defines no result, modelled here as `none`. -/
def ReadableRamAddr.try_from : Nat → Option ReadableRamAddr
  | 0 => some .ID
  | 1 => some .AckPolicy
  | 2 => some .AlarmLEDPolicy
  | 3 => some .TorquePolicy
  | 5 => some .MaxTemperature
  | 6 => some .MinVoltage
  | 7 => some .MaxVoltage
  | 8 => some .AccelerationRatio
  | 9 => some .MaxAcceleration
  | 10 => some .DeadZone
  | 11 => some .SaturatorOffset
  | 12 => some .SaturatorSlope
  | 14 => some .PWMOffset
  | 15 => some .MinPWM
  | 16 => some .MaxPWM
  | 18 => some .OverloadPWMThreshold
  | 20 => some .MinPosition
  | 22 => some .MaxPosition
  | 24 => some .PositionKp
  | 26 => some .PositionKd
  | 28 => some .PositionKi
  | 30 => some .PositionFFFirstGain
  | 32 => some .PositionFFSecondGain
  | 38 => some .LedBlinkPeriod
  | 39 => some .ADCFaultDetectionPeriod
  | 40 => some .PacketGarbageDetectionPeriod
  | 41 => some .StopDetectionPeriod
  | 42 => some .OverloadDetectionPeriod
  | 43 => some .StopThreshold
  | 44 => some .InpositionMargin
  | 47 => some .CalibrationDifference
  | 48 => some .StatusError
  | 49 => some .StatusDetail
  | 52 => some .TorqueControl
  | 53 => some .LEDControl
  | 54 => some .Voltage
  | 55 => some .Temperature
  | 56 => some .CurrentControlMode
  | 57 => some .Tick
  | 58 => some .CalibratedPosition
  | 60 => some .AbsolutePosition
  | 62 => some .DifferentialPosition
  | 64 => some .PWM
  | 68 => some .AbsoluteGoalPosition
  | 70 => some .AbsoluteDesiredTrajectoryPosition
  | 72 => some .DesiredVelocity
  | _ => none

/-- Source `struct RamReadData` (`addr.rs`): the `data: [u8; 2]` array is a pair. -/
structure RamReadData where
  addr : ReadableRamAddr
  data_len : Nat
  data : Nat × Nat
  deriving DecidableEq, Repr

/-- All the RAM (volatile) memory addresses which can be written to
(`addr.rs`, `enum WritableRamAddr`); writable variants carry the value
byte(s) to write. -/
inductive WritableRamAddr
  | ID (d : Nat)
  | AckPolicy (d : Nat)
  | AlarmLEDPolicy (d : Nat)
  | TorquePolicy (d : Nat)
  | MaxTemperature (d : Nat)
  | MinVoltage (d : Nat)
  | MaxVoltage (d : Nat)
  | AccelerationRatio (d : Nat)
  | MaxAcceleration (d : Nat)
  | DeadZone (d : Nat)
  | SaturatorOffset (d : Nat)
  | SaturatorSlope (d d2 : Nat)
  | PWMOffset (d : Nat)
  | MinPWM (d : Nat)
  | MaxPWM (d d2 : Nat)
  | OverloadPWMThreshold (d d2 : Nat)
  | MinPosition (d d2 : Nat)
  | MaxPosition (d d2 : Nat)
  | PositionKp (d d2 : Nat)
  | PositionKd (d d2 : Nat)
  | PositionKi (d d2 : Nat)
  | PositionFFFirstGain (d d2 : Nat)
  | PositionFFSecondGain (d d2 : Nat)
  | LedBlinkPeriod (d : Nat)
  | ADCFaultDetectionPeriod (d : Nat)
  | PacketGarbageDetectionPeriod (d : Nat)
  | StopDetectionPeriod (d : Nat)
  | OverloadDetectionPeriod (d : Nat)
  | StopThreshold (d : Nat)
  | InpositionMargin (d : Nat)
  | CalibrationDifference (d : Nat)
  | StatusError (d : Nat)
  | StatusDetail (d : Nat)
  | TorqueControl (d : Nat)
  | LEDControl (d : Nat)
  deriving DecidableEq, Repr

/-- Source `WritableRamAddr::bytes`. -/
def WritableRamAddr.bytes : WritableRamAddr → Nat
  | .ID _ => 1
  | .AckPolicy _ => 1
  | .AlarmLEDPolicy _ => 1
  | .TorquePolicy _ => 1
  | .MaxTemperature _ => 1
  | .MinVoltage _ => 1
  | .MaxVoltage _ => 1
  | .AccelerationRatio _ => 1
  | .MaxAcceleration _ => 1
  | .DeadZone _ => 1
  | .SaturatorOffset _ => 1
  | .SaturatorSlope _ _ => 2
  | .PWMOffset _ => 1
  | .MinPWM _ => 1
  | .MaxPWM _ _ => 2
  | .OverloadPWMThreshold _ _ => 2
  | .MinPosition _ _ => 2
  | .MaxPosition _ _ => 2
  | .PositionKp _ _ => 2
  | .PositionKd _ _ => 2
  | .PositionKi _ _ => 2
  | .PositionFFFirstGain _ _ => 2
  | .PositionFFSecondGain _ _ => 2
  | .LedBlinkPeriod _ => 1
  | .ADCFaultDetectionPeriod _ => 1
  | .PacketGarbageDetectionPeriod _ => 1
  | .StopDetectionPeriod _ => 1
  | .OverloadDetectionPeriod _ => 1
  | .StopThreshold _ => 1
  | .InpositionMargin _ => 1
  | .CalibrationDifference _ => 1
  | .StatusError _ => 1
  | .StatusDetail _ => 1
  | .TorqueControl _ => 1
  | .LEDControl _ => 1

/-- Source `WritableRamAddr::associated_data`: the value byte(s) carried by the variant. -/
def WritableRamAddr.associated_data : WritableRamAddr → Nat × Option Nat
  | .ID d => (d, none)
  | .AckPolicy d => (d, none)
  | .AlarmLEDPolicy d => (d, none)
  | .TorquePolicy d => (d, none)
  | .MaxTemperature d => (d, none)
  | .MinVoltage d => (d, none)
  | .MaxVoltage d => (d, none)
  | .AccelerationRatio d => (d, none)
  | .MaxAcceleration d => (d, none)
  | .DeadZone d => (d, none)
  | .SaturatorOffset d => (d, none)
  | .SaturatorSlope d d2 => (d, some d2)
  | .PWMOffset d => (d, none)
  | .MinPWM d => (d, none)
  | .MaxPWM d d2 => (d, some d2)
  | .OverloadPWMThreshold d d2 => (d, some d2)
  | .MinPosition d d2 => (d, some d2)
  | .MaxPosition d d2 => (d, some d2)
  | .PositionKp d d2 => (d, some d2)
  | .PositionKd d d2 => (d, some d2)
  | .PositionKi d d2 => (d, some d2)
  | .PositionFFFirstGain d d2 => (d, some d2)
  | .PositionFFSecondGain d d2 => (d, some d2)
  | .LedBlinkPeriod d => (d, none)
  | .ADCFaultDetectionPeriod d => (d, none)
  | .PacketGarbageDetectionPeriod d => (d, none)
  | .StopDetectionPeriod d => (d, none)
  | .OverloadDetectionPeriod d => (d, none)
  | .StopThreshold d => (d, none)
  | .InpositionMargin d => (d, none)
  | .CalibrationDifference d => (d, none)
  | .StatusError d => (d, none)
  | .StatusDetail d => (d, none)
  | .TorqueControl d => (d, none)
  | .LEDControl d => (d, none)

/-- Source `impl From<WritableRamAddr> for u8`. -/
def WritableRamAddr.toByte : WritableRamAddr → Nat
  | .ID _ => 0
  | .AckPolicy _ => 1
  | .AlarmLEDPolicy _ => 2
  | .TorquePolicy _ => 3
  | .MaxTemperature _ => 5
  | .MinVoltage _ => 6
  | .MaxVoltage _ => 7
  | .AccelerationRatio _ => 8
  | .MaxAcceleration _ => 9
  | .DeadZone _ => 10
  | .SaturatorOffset _ => 11
  | .SaturatorSlope _ _ => 12
  | .PWMOffset _ => 14
  | .MinPWM _ => 15
  | .MaxPWM _ _ => 16
  | .OverloadPWMThreshold _ _ => 18
  | .MinPosition _ _ => 20
  | .MaxPosition _ _ => 22
  | .PositionKp _ _ => 24
  | .PositionKd _ _ => 26
  | .PositionKi _ _ => 28
  | .PositionFFFirstGain _ _ => 30
  | .PositionFFSecondGain _ _ => 32
  | .LedBlinkPeriod _ => 38
  | .ADCFaultDetectionPeriod _ => 39
  | .PacketGarbageDetectionPeriod _ => 40
  | .StopDetectionPeriod _ => 41
  | .OverloadDetectionPeriod _ => 42
  | .StopThreshold _ => 43
  | .InpositionMargin _ => 44
  | .CalibrationDifference _ => 47
  | .StatusError _ => 48
  | .StatusDetail _ => 49
  | .TorqueControl _ => 52
  | .LEDControl _ => 53

/-- All the EEP (permanent) memory addresses which can be read
(`addr.rs`, `enum ReadableEEPAddr`). -/
inductive ReadableEEPAddr
  | ModelNo1
  | ModelNo2
  | Version1
  | Version2
  | BaudRate
  | ID
  | AckPolicy
  | AlarmLEDPolicy
  | TorquePolicy
  | MaxTemperature
  | MinVoltage
  | MaxVoltage
  | AccelerationRatio
  | MaxAccelerationTime
  | DeadZone
  | SaturatorOffset
  | SaturatorSlope
  | PWMOffset
  | MinPWM
  | MaxPWM
  | OverloadPWMThreshold
  | MinPosition
  | MaxPosition
  | PositionKp
  | PositionKd
  | PositionKi
  | PositionFFFirstGain
  | PositionFFSecondGain
  | LedBlinkPeriod
  | ADCFaultCheckPeriod
  | PacketGarbageDetectionPeriod
  | StopDetectionPeriod
  | OverloadDetectionPeriod
  | StopThreshold
  | InpositionMargin
  | CalibrationDifference
  deriving DecidableEq, Repr

/-- Source `ReadableEEPAddr::bytes`. -/
def ReadableEEPAddr.bytes : ReadableEEPAddr → Nat
  | .ModelNo1 => 1
  | .ModelNo2 => 1
  | .Version1 => 1
  | .Version2 => 1
  | .BaudRate => 1
  | .ID => 1
  | .AckPolicy => 1
  | .AlarmLEDPolicy => 1
  | .TorquePolicy => 1
  | .MaxTemperature => 1
  | .MinVoltage => 1
  | .MaxVoltage => 1
  | .AccelerationRatio => 1
  | .MaxAccelerationTime => 1
  | .DeadZone => 1
  | .SaturatorOffset => 1
  | .SaturatorSlope => 2
  | .PWMOffset => 1
  | .MinPWM => 1
  | .MaxPWM => 2
  | .OverloadPWMThreshold => 2
  | .MinPosition => 2
  | .MaxPosition => 2
  | .PositionKp => 2
  | .PositionKd => 2
  | .PositionKi => 2
  | .PositionFFFirstGain => 2
  | .PositionFFSecondGain => 2
  | .LedBlinkPeriod => 1
  | .ADCFaultCheckPeriod => 1
  | .PacketGarbageDetectionPeriod => 1
  | .StopDetectionPeriod => 1
  | .OverloadDetectionPeriod => 1
  | .StopThreshold => 1
  | .InpositionMargin => 1
  | .CalibrationDifference => 1

/-- Source `impl From<ReadableEEPAddr> for u8`. -/
def ReadableEEPAddr.toByte : ReadableEEPAddr → Nat
  | .ModelNo1 => 0
  | .ModelNo2 => 1
  | .Version1 => 2
  | .Version2 => 3
  | .BaudRate => 4
  | .ID => 6
  | .AckPolicy => 7
  | .AlarmLEDPolicy => 8
  | .TorquePolicy => 9
  | .MaxTemperature => 11
  | .MinVoltage => 12
  | .MaxVoltage => 13
  | .AccelerationRatio => 14
  | .MaxAccelerationTime => 15
  | .DeadZone => 16
  | .SaturatorOffset => 17
  | .SaturatorSlope => 18
  | .PWMOffset => 20
  | .MinPWM => 21
  | .MaxPWM => 22
  | .OverloadPWMThreshold => 24
  | .MinPosition => 26
  | .MaxPosition => 28
  | .PositionKp => 30
  | .PositionKd => 32
  | .PositionKi => 34
  | .PositionFFFirstGain => 36
  | .PositionFFSecondGain => 38
  | .LedBlinkPeriod => 44
  | .ADCFaultCheckPeriod => 45
  | .PacketGarbageDetectionPeriod => 46
  | .StopDetectionPeriod => 47
  | .OverloadDetectionPeriod => 48
  | .StopThreshold => 49
  | .InpositionMargin => 50
  | .CalibrationDifference => 53

/-- Source `impl TryFrom<u8> for ReadableEEPAddr`.  Like the readable-RAM table the
source `match` has NO catch-all arm: bytes outside the table have no defined
result (`none`). -/
def ReadableEEPAddr.try_from : Nat → Option ReadableEEPAddr
  | 0 => some .ModelNo1
  | 1 => some .ModelNo2
  | 2 => some .Version1
  | 3 => some .Version2
  | 4 => some .BaudRate
  | 6 => some .ID
  | 7 => some .AckPolicy
  | 8 => some .AlarmLEDPolicy
  | 9 => some .TorquePolicy
  | 11 => some .MaxTemperature
  | 12 => some .MinVoltage
  | 13 => some .MaxVoltage
  | 14 => some .AccelerationRatio
  | 15 => some .MaxAccelerationTime
  | 16 => some .DeadZone
  | 17 => some .SaturatorOffset
  | 18 => some .SaturatorSlope
  | 20 => some .PWMOffset
  | 21 => some .MinPWM
  | 22 => some .MaxPWM
  | 24 => some .OverloadPWMThreshold
  | 26 => some .MinPosition
  | 28 => some .MaxPosition
  | 30 => some .PositionKp
  | 32 => some .PositionKd
  | 34 => some .PositionKi
  | 36 => some .PositionFFFirstGain
  | 38 => some .PositionFFSecondGain
  | 44 => some .LedBlinkPeriod
  | 45 => some .ADCFaultCheckPeriod
  | 46 => some .PacketGarbageDetectionPeriod
  | 47 => some .StopDetectionPeriod
  | 48 => some .OverloadDetectionPeriod
  | 49 => some .StopThreshold
  | 50 => some .InpositionMargin
  | 53 => some .CalibrationDifference
  | _ => none

/-- Source `struct EEPReadData` (`addr.rs`). -/
structure EEPReadData where
  addr : ReadableEEPAddr
  data_len : Nat
  data : Nat × Nat
  deriving DecidableEq, Repr

/-- All the EEP (permanent) memory addresses which can be written to
(`addr.rs`, `enum WritableEEPAddr`). -/
inductive WritableEEPAddr
  | BaudRate (d : Nat)
  | ID (d : Nat)
  | AckPolicy (d : Nat)
  | AlarmLEDPolicy (d : Nat)
  | TorquePolicy (d : Nat)
  | MaxTemperature (d : Nat)
  | MinVoltage (d : Nat)
  | MaxVoltage (d : Nat)
  | AccelerationRatio (d : Nat)
  | MaxAccelerationTime (d : Nat)
  | DeadZone (d : Nat)
  | SaturatorOffset (d : Nat)
  | SaturatorSlope (d d2 : Nat)
  | PWMOffset (d : Nat)
  | MinPWM (d : Nat)
  | MaxPWM (d d2 : Nat)
  | OverloadPWMThreshold (d d2 : Nat)
  | MinPosition (d d2 : Nat)
  | MaxPosition (d d2 : Nat)
  | PositionKp (d d2 : Nat)
  | PositionKd (d d2 : Nat)
  | PositionKi (d d2 : Nat)
  | PositionFFFirstGain (d d2 : Nat)
  | PositionFFSecondGain (d d2 : Nat)
  | LedBlinkPeriod (d : Nat)
  | ADCFaultCheckPeriod (d : Nat)
  | PacketGarbageDetectionPeriod (d : Nat)
  | StopDetectionPeriod (d : Nat)
  | OverloadDetectionPeriod (d : Nat)
  | StopThreshold (d : Nat)
  | InpositionMargin (d : Nat)
  | CalibrationDifference (d : Nat)
  deriving DecidableEq, Repr

/-- Source `impl From<WritableEEPAddr> for u8`. -/
def WritableEEPAddr.toByte : WritableEEPAddr → Nat
  | .BaudRate _ => 4
  | .ID _ => 6
  | .AckPolicy _ => 7
  | .AlarmLEDPolicy _ => 8
  | .TorquePolicy _ => 9
  | .MaxTemperature _ => 11
  | .MinVoltage _ => 12
  | .MaxVoltage _ => 13
  | .AccelerationRatio _ => 14
  | .MaxAccelerationTime _ => 15
  | .DeadZone _ => 16
  | .SaturatorOffset _ => 17
  | .SaturatorSlope _ _ => 18
  | .PWMOffset _ => 20
  | .MinPWM _ => 21
  | .MaxPWM _ _ => 22
  | .OverloadPWMThreshold _ _ => 24
  | .MinPosition _ _ => 26
  | .MaxPosition _ _ => 28
  | .PositionKp _ _ => 30
  | .PositionKd _ _ => 32
  | .PositionKi _ _ => 34
  | .PositionFFFirstGain _ _ => 36
  | .PositionFFSecondGain _ _ => 38
  | .LedBlinkPeriod _ => 44
  | .ADCFaultCheckPeriod _ => 45
  | .PacketGarbageDetectionPeriod _ => 46
  | .StopDetectionPeriod _ => 47
  | .OverloadDetectionPeriod _ => 48
  | .StopThreshold _ => 49
  | .InpositionMargin _ => 50
  | .CalibrationDifference _ => 53

/-- Source `enum Error` in `addr.rs`. -/
inductive AddrError
  | InvalidAddress
  deriving DecidableEq, Repr

/-- Source `impl TryFrom<u8> for WritableEEPAddr`: the only reverse lookup in the
source with a catch-all arm, `_ => Err(Error::InvalidAddress)`. -/
def WritableEEPAddr.try_from : Nat → Except AddrError WritableEEPAddr
  | 4 => .ok (.BaudRate 0)
  | 6 => .ok (.ID 0)
  | 7 => .ok (.AckPolicy 0)
  | 8 => .ok (.AlarmLEDPolicy 0)
  | 9 => .ok (.TorquePolicy 0)
  | 11 => .ok (.MaxTemperature 0)
  | 12 => .ok (.MinVoltage 0)
  | 13 => .ok (.MaxVoltage 0)
  | 14 => .ok (.AccelerationRatio 0)
  | 15 => .ok (.MaxAccelerationTime 0)
  | 16 => .ok (.DeadZone 0)
  | 17 => .ok (.SaturatorOffset 0)
  | 18 => .ok (.SaturatorSlope 0 0)
  | 20 => .ok (.PWMOffset 0)
  | 21 => .ok (.MinPWM 0)
  | 22 => .ok (.MaxPWM 0 0)
  | 24 => .ok (.OverloadPWMThreshold 0 0)
  | 26 => .ok (.MinPosition 0 0)
  | 28 => .ok (.MaxPosition 0 0)
  | 30 => .ok (.PositionKp 0 0)
  | 32 => .ok (.PositionKd 0 0)
  | 34 => .ok (.PositionKi 0 0)
  | 36 => .ok (.PositionFFFirstGain 0 0)
  | 38 => .ok (.PositionFFSecondGain 0 0)
  | 44 => .ok (.LedBlinkPeriod 0)
  | 45 => .ok (.ADCFaultCheckPeriod 0)
  | 46 => .ok (.PacketGarbageDetectionPeriod 0)
  | 47 => .ok (.StopDetectionPeriod 0)
  | 48 => .ok (.OverloadDetectionPeriod 0)
  | 49 => .ok (.StopThreshold 0)
  | 50 => .ok (.InpositionMargin 0)
  | 53 => .ok (.CalibrationDifference 0)
  | _ => .error .InvalidAddress

/-- Source `WritableEEPAddr::bytes`. -/
def WritableEEPAddr.bytes : WritableEEPAddr → Nat
  | .BaudRate _ => 1
  | .ID _ => 1
  | .AckPolicy _ => 1
  | .AlarmLEDPolicy _ => 1
  | .TorquePolicy _ => 1
  | .MaxTemperature _ => 1
  | .MinVoltage _ => 1
  | .MaxVoltage _ => 1
  | .AccelerationRatio _ => 1
  | .MaxAccelerationTime _ => 1
  | .DeadZone _ => 1
  | .SaturatorOffset _ => 1
  | .SaturatorSlope _ _ => 2
  | .PWMOffset _ => 1
  | .MinPWM _ => 1
  | .MaxPWM _ _ => 2
  | .OverloadPWMThreshold _ _ => 2
  | .MinPosition _ _ => 2
  | .MaxPosition _ _ => 2
  | .PositionKp _ _ => 2
  | .PositionKd _ _ => 2
  | .PositionKi _ _ => 2
  | .PositionFFFirstGain _ _ => 2
  | .PositionFFSecondGain _ _ => 2
  | .LedBlinkPeriod _ => 1
  | .ADCFaultCheckPeriod _ => 1
  | .PacketGarbageDetectionPeriod _ => 1
  | .StopDetectionPeriod _ => 1
  | .OverloadDetectionPeriod _ => 1
  | .StopThreshold _ => 1
  | .InpositionMargin _ => 1
  | .CalibrationDifference _ => 1

/-- Source `WritableEEPAddr::associated_data`. -/
def WritableEEPAddr.associated_data : WritableEEPAddr → Nat × Option Nat
  | .BaudRate d => (d, none)
  | .ID d => (d, none)
  | .AckPolicy d => (d, none)
  | .AlarmLEDPolicy d => (d, none)
  | .TorquePolicy d => (d, none)
  | .MaxTemperature d => (d, none)
  | .MinVoltage d => (d, none)
  | .MaxVoltage d => (d, none)
  | .AccelerationRatio d => (d, none)
  | .MaxAccelerationTime d => (d, none)
  | .DeadZone d => (d, none)
  | .SaturatorOffset d => (d, none)
  | .SaturatorSlope d d2 => (d, some d2)
  | .PWMOffset d => (d, none)
  | .MinPWM d => (d, none)
  | .MaxPWM d d2 => (d, some d2)
  | .OverloadPWMThreshold d d2 => (d, some d2)
  | .MinPosition d d2 => (d, some d2)
  | .MaxPosition d d2 => (d, some d2)
  | .PositionKp d d2 => (d, some d2)
  | .PositionKd d d2 => (d, some d2)
  | .PositionKi d d2 => (d, some d2)
  | .PositionFFFirstGain d d2 => (d, some d2)
  | .PositionFFSecondGain d d2 => (d, some d2)
  | .LedBlinkPeriod d => (d, none)
  | .ADCFaultCheckPeriod d => (d, none)
  | .PacketGarbageDetectionPeriod d => (d, none)
  | .StopDetectionPeriod d => (d, none)
  | .OverloadDetectionPeriod d => (d, none)
  | .StopThreshold d => (d, none)
  | .InpositionMargin d => (d, none)
  | .CalibrationDifference d => (d, none)

/-! ## message.rs -/

/-- Source `enum RegisterRequest` (`message.rs`). -/
inductive RegisterRequest
  | EEPWrite (a : WritableEEPAddr)
  | EEPRead (a : ReadableEEPAddr)
  | RamWrite (a : WritableRamAddr)
  | RamRead (a : ReadableRamAddr)
  deriving DecidableEq, Repr

/-- Source `enum SpecialRequest` (`message.rs`). -/
inductive SpecialRequest
  | Stat
  | Rollback (skip_id skip_baud : Nat)
  | Reboot
  deriving DecidableEq, Repr

/-- Source `enum Rollback` (`message.rs`). -/
inductive Rollback
  | SkipId
  | SkipBaud
  | SkipBoth
  | SkipNone
  deriving DecidableEq, Repr

/-- Source `enum Rotation` (`message.rs`). -/
inductive Rotation
  | CounterClockwise
  | Clockwise
  deriving DecidableEq, Repr

/-- Source `enum JogMode` (`message.rs`): position control or speed control. -/
inductive JogMode
  | Normal (position : Nat)
  | Continuous (speed : Nat) (rotation : Rotation)
  deriving DecidableEq, Repr

/-- Source `JogMode::associated_data`: the raw 16-bit data word of a jog entry
(`0x4000` is the rotation-flag bit for clockwise continuous rotation). -/
def JogMode.associated_data : JogMode → Nat
  | .Normal position => position
  | .Continuous speed .Clockwise => 0x4000 ||| speed
  | .Continuous speed .CounterClockwise => speed

/-- Source `enum JogColor` (`message.rs`). -/
inductive JogColor
  | Red
  | Green
  | Blue
  deriving DecidableEq, Repr

/-- Source `struct SJogData` (`message.rs`). -/
structure SJogData where
  mode : JogMode
  color : JogColor
  id : Nat
  deriving DecidableEq, Repr

/-- Source `struct IJogData` (`message.rs`). -/
structure IJogData where
  mode : JogMode
  color : JogColor
  playtime : Nat
  id : Nat
  deriving DecidableEq, Repr

/-- Source `struct SJogRequest` (`message.rs`): the `ArrayVec<[SJogData; 10]>` is a
list kept at length at most 10 by the capacity guard of the builder. -/
structure SJogRequest where
  data : List SJogData
  playtime : Nat
  deriving DecidableEq, Repr

/-! ## builder.rs -/

/-- Source `enum MessageBuilderError` (`builder.rs`). -/
inductive MessageBuilderError
  | MaximumDataReached
  deriving DecidableEq, Repr

/-- Source `struct Packet` (`builder.rs`): working buffer for an outbound frame.
The `data: [u8; 16]` array together with `data_size` is a list of at most
16 payload bytes. -/
structure Packet where
  pid : Nat
  cmd : Nat
  data : List Nat
  deriving DecidableEq, Repr

/-- Source `Packet::push_data`: writes `data[data_size]` and increments `data_size`.
When `data_size` is already 16 the source indexes past the end of the
`[u8; 16]` array, a panic: no result (`none`). -/
def Packet.push_data (p : Packet) (b : Nat) : Option Packet :=
  if p.data.length < 16 then some { p with data := p.data ++ [b] } else none

/-- Source `Packet::build`: serializes the frame.  The working buffer starts as
`[0xFF, 0xFF, size, pid, cmd, payload...]`, `checksum1` is the XOR fold of
`size`, `pid`, `cmd` and the payload masked with `0xFE`, `checksum2` is its
complement masked with `0xFE`, and both are inserted at positions 5 and 6.
`size` is `data_size as u8 + 7` (u8 addition, hence the `% 256`). -/
def Packet.build (p : Packet) : List Nat :=
  let size := (p.data.length + 7) % 256
  let checksum1 := (p.data.foldl (fun acc b => acc ^^^ b) ((size ^^^ p.pid) ^^^ p.cmd)) &&& 0xFE
  let checksum2 := (255 ^^^ checksum1) &&& 0xFE
  let result := [0xFF, 0xFF, size, p.pid, p.cmd] ++ p.data
  (result.insertIdx 5 checksum1).insertIdx 6 checksum2

/-- Source `struct MessageBuilderMem` (`builder.rs`). -/
structure MessageBuilderMem where
  pid : Nat
  addr : RegisterRequest
  size : Nat
  deriving DecidableEq, Repr

/-- Source `struct MessageBuilderPositionSJOG` (`builder.rs`). -/
structure MessageBuilderPositionSJOG where
  pid : Nat
  pos : SJogRequest
  deriving DecidableEq, Repr

/-- Source `struct MessageBuilderPositionIJOG` (`builder.rs`); `IJogRequest` is an
`ArrayVec<[IJogData; 10]>`. -/
structure MessageBuilderPositionIJOG where
  pid : Nat
  pos : List IJogData
  deriving DecidableEq, Repr

/-- Source `struct MessageBuilderSpecial` (`builder.rs`). -/
structure MessageBuilderSpecial where
  pid : Nat
  kind : SpecialRequest
  deriving DecidableEq, Repr

/-- Source `MessageBuilderCmd::read_ram` with an explicit or defaulted transfer size. -/
def read_ram (pid : Nat) (ram_addr : ReadableRamAddr) (size : Option Nat) :
    MessageBuilderMem :=
  { pid := pid, addr := .RamRead ram_addr,
    size := match size with
            | some s => s
            | none => ram_addr.bytes }

/-- Source `MessageBuilderCmd::write_ram`. -/
def write_ram (pid : Nat) (ram_addr : WritableRamAddr) : MessageBuilderMem :=
  { pid := pid, addr := .RamWrite ram_addr, size := ram_addr.bytes }

/-- Source `MessageBuilderCmd::read_eep`. -/
def read_eep (pid : Nat) (eep_addr : ReadableEEPAddr) (size : Option Nat) :
    MessageBuilderMem :=
  { pid := pid, addr := .EEPRead eep_addr,
    size := match size with
            | some s => s
            | none => eep_addr.bytes }

/-- Source `MessageBuilderCmd::write_eep`. -/
def write_eep (pid : Nat) (eep_addr : WritableEEPAddr) : MessageBuilderMem :=
  { pid := pid, addr := .EEPWrite eep_addr, size := eep_addr.bytes }

/-- Source `MessageBuilderCmd::rollback`: translate the flag selector. -/
def rollback (pid : Nat) (flags : Rollback) : MessageBuilderSpecial :=
  { pid := pid,
    kind := match flags with
            | .SkipId => .Rollback 1 0
            | .SkipBaud => .Rollback 0 1
            | .SkipBoth => .Rollback 1 1
            | .SkipNone => .Rollback 0 0 }

/-- Source `MessageBuilderCmd::s_jog`: a fresh SJOG builder holding one entry. -/
def s_jog_new (pid playtime : Nat) (mode : JogMode) (color : JogColor)
    (id : Nat) : MessageBuilderPositionSJOG :=
  { pid := pid, pos := { data := [⟨mode, color, id⟩], playtime := playtime } }

/-- Source `MessageBuilderCmd::i_jog`: a fresh IJOG builder holding one entry. -/
def i_jog_new (pid playtime : Nat) (mode : JogMode) (color : JogColor)
    (id : Nat) : MessageBuilderPositionIJOG :=
  { pid := pid, pos := [⟨mode, color, playtime, id⟩] }

/-- Source `MessageBuilderMem::build`: opcode selection and payload layout for the
four register requests
(`[register-address, length, value-byte-1, value-byte-2?]` for writes,
`[register-address, length]` for reads), then `Packet::build`.  The at most
four `push_data` calls always fit in the 16-byte buffer, but the embedding
keeps them fallible exactly as in the source. -/
def MessageBuilderMem.build (m : MessageBuilderMem) : Option (List Nat) := do
  let cmd := match m.addr with
             | .EEPWrite _ => 0x01
             | .EEPRead _ => 0x02
             | .RamWrite _ => 0x03
             | .RamRead _ => 0x04
  let packet : Packet := { pid := m.pid, cmd := cmd, data := [] }
  let packet ← match m.addr with
    | .EEPWrite addr => do
        let p ← packet.push_data addr.toByte
        let p ← p.push_data m.size
        let (d1, opt_d2) := addr.associated_data
        let p ← p.push_data d1
        match opt_d2 with
        | some d2 => p.push_data d2
        | none => pure p
    | .RamWrite addr => do
        let p ← packet.push_data addr.toByte
        let p ← p.push_data m.size
        let (d1, opt_d2) := addr.associated_data
        let p ← p.push_data d1
        match opt_d2 with
        | some d2 => p.push_data d2
        | none => pure p
    | .EEPRead addr => do
        let p ← packet.push_data addr.toByte
        p.push_data m.size
    | .RamRead addr => do
        let p ← packet.push_data addr.toByte
        p.push_data m.size
  pure packet.build

/-- Source `MessageBuilderSpecial::build`. -/
def MessageBuilderSpecial.build (m : MessageBuilderSpecial) :
    Option (List Nat) := do
  let cmd := match m.kind with
             | .Stat => 0x07
             | .Rollback _ _ => 0x08
             | .Reboot => 0x09
  let packet : Packet := { pid := m.pid, cmd := cmd, data := [] }
  let packet ← match m.kind with
    | .Rollback id_bit baud_bit => do
        let p ← packet.push_data id_bit
        p.push_data baud_bit
    | _ => pure packet
  pure packet.build

/-- Source `MessageBuilderPositionSJOG::s_jog`: append one more SJOG entry; on a
full (10-entry) list return `MaximumDataReached` and leave the builder
untouched.  The result pairs the returned `Result<(), _>` with the builder
after the call. -/
def MessageBuilderPositionSJOG.s_jog (m : MessageBuilderPositionSJOG)
    (mode : JogMode) (color : JogColor) (id : Nat) :
    Option MessageBuilderError × MessageBuilderPositionSJOG :=
  if m.pos.data.length == 10 then
    (some .MaximumDataReached, m)
  else
    (none, { m with pos := { m.pos with data := m.pos.data ++ [⟨mode, color, id⟩] } })

/-- The four bytes of one SJOG entry: two little-endian data bytes
(`d as u8`, `(d >> 8) as u8`), the set/mode/color bitfield, the id. -/
def SJogData.bytesOf (data : SJogData) : List Nat :=
  let d := data.mode.associated_data
  let lsb := d % 256
  let msb := (d >>> 8) % 256
  let set :=
    (match data.mode with
     | .Normal _ => 0
     | .Continuous _ _ => 2) |||
    (match data.color with
     | .Blue => 8
     | .Green => 4
     | .Red => 16)
  [lsb, msb, set, data.id]

/-- The loop body of `MessageBuilderPositionSJOG::build`: push the two
little-endian data bytes (`d as u8`, `(d >> 8) as u8`), the set/mode/color
bitfield and the id of one entry. -/
def sjogPushEntry (acc : Packet) (data : SJogData) : Option Packet := do
  let d := data.mode.associated_data
  let lsb := d % 256
  let msb := (d >>> 8) % 256
  let acc ← acc.push_data lsb
  let acc ← acc.push_data msb
  let set :=
    (match data.mode with
     | .Normal _ => 0
     | .Continuous _ _ => 2) |||
    (match data.color with
     | .Blue => 8
     | .Green => 4
     | .Red => 16)
  let acc ← acc.push_data set
  acc.push_data data.id

/-- Source `MessageBuilderPositionSJOG::build`: push the shared playtime, then the
four bytes of each entry, then `Packet::build`.  Four or more entries
overflow the 16-byte working buffer (a panic in the source): `none`. -/
def MessageBuilderPositionSJOG.build (m : MessageBuilderPositionSJOG) :
    Option (List Nat) := do
  let packet : Packet := { pid := m.pid, cmd := 6, data := [] }
  let packet ← packet.push_data m.pos.playtime
  let packet ← m.pos.data.foldlM sjogPushEntry packet
  pure packet.build

/-- Source `MessageBuilderPositionIJOG::s_jog`: append one more IJOG entry with the
same 10-entry capacity guard. -/
def MessageBuilderPositionIJOG.s_jog (m : MessageBuilderPositionIJOG)
    (mode : JogMode) (color : JogColor) (playtime id : Nat) :
    Option MessageBuilderError × MessageBuilderPositionIJOG :=
  if m.pos.length == 10 then
    (some .MaximumDataReached, m)
  else
    (none, { m with pos := m.pos ++ [⟨mode, color, playtime, id⟩] })

/-- The five bytes of one IJOG entry: two little-endian data bytes, the
set/mode/color bitfield, the id, the per-entry playtime. -/
def IJogData.bytesOf (data : IJogData) : List Nat :=
  let d := data.mode.associated_data
  let lsb := d % 256
  let msb := (d >>> 8) % 256
  let set :=
    (match data.mode with
     | .Normal _ => 0
     | .Continuous _ _ => 2) |||
    (match data.color with
     | .Blue => 8
     | .Green => 4
     | .Red => 16)
  [lsb, msb, set, data.id, data.playtime]

/-- The loop body of `MessageBuilderPositionIJOG::build`: the four SJOG
bytes of one entry followed by its own playtime byte. -/
def ijogPushEntry (acc : Packet) (data : IJogData) : Option Packet := do
  let d := data.mode.associated_data
  let lsb := d % 256
  let msb := (d >>> 8) % 256
  let acc ← acc.push_data lsb
  let acc ← acc.push_data msb
  let set :=
    (match data.mode with
     | .Normal _ => 0
     | .Continuous _ _ => 2) |||
    (match data.color with
     | .Blue => 8
     | .Green => 4
     | .Red => 16)
  let acc ← acc.push_data set
  let acc ← acc.push_data data.id
  acc.push_data data.playtime

/-- Source `MessageBuilderPositionIJOG::build`: five bytes per entry, no shared
playtime byte. -/
def MessageBuilderPositionIJOG.build (m : MessageBuilderPositionIJOG) :
    Option (List Nat) := do
  let packet : Packet := { pid := m.pid, cmd := 5, data := [] }
  let packet ← m.pos.foldlM ijogPushEntry packet
  pure packet.build

/-! ## reader.rs -/

/-- Source `TRAME_READER_INTERNAL_BUFFER_SIZE` (`reader.rs`). -/
def TRAME_READER_INTERNAL_BUFFER_SIZE : Nat := 64

/-- Source `enum Command` (`reader.rs`): decoded acknowledgement command; only the
two read commands carry a payload. -/
inductive Command
  | EEPWrite
  | EEPRead (data : EEPReadData)
  | RamWrite
  | RamRead (data : RamReadData)
  | IJog
  | SJog
  | Stat
  | Rollback
  | Reboot
  deriving DecidableEq, Repr

/-- Source `impl From<Command> for u8` (`reader.rs`): acknowledgement opcodes. -/
def Command.toByte : Command → Nat
  | .EEPWrite => 0x41
  | .EEPRead _ => 0x42
  | .RamWrite => 0x43
  | .RamRead _ => 0x44
  | .IJog => 0x45
  | .SJog => 0x46
  | .Stat => 0x47
  | .Rollback => 0x48
  | .Reboot => 0x49

/-- Source `enum InternalCommand` (`reader.rs`). -/
inductive InternalCommand
  | EEPWrite
  | EEPRead
  | RamWrite
  | RamRead
  | IJog
  | SJog
  | Stat
  | Rollback
  | Reboot
  deriving DecidableEq, Repr

/-- Source `enum StatusError` (`reader.rs`). -/
inductive StatusError
  | ExceedInputVoltageLimit
  | ExceedAllowedPOTLimit
  | ExceedTemperatureLimit
  | InvalidPacket
  | OverloadDetected
  | DriverFaultDetected
  | EEPREGDistorded
  | NoError
  deriving DecidableEq, Repr

/-- Source `enum StatusDetail` (`reader.rs`). -/
inductive StatusDetail
  | MovingFlag
  | ImpositionFlag
  | ChecksumError
  | UnknownCommand
  | ExceedREGRange
  | GarbageDetected
  | MotorOnFlag
  | NoDetail
  deriving DecidableEq, Repr

/-- Source `enum AssociatedData` (`reader.rs`). -/
inductive AssociatedData
  | EEP (data : EEPReadData)
  | Ram (data : RamReadData)
  | Nothing
  deriving DecidableEq, Repr

/-- Source `InternalCommand::inject_payload`: pair the internal command with its
payload.  The source has `_ => unreachable!()` for inconsistent pairs, a
panic: `none`. -/
def InternalCommand.inject_payload :
    InternalCommand → AssociatedData → Option Command
  | .EEPWrite, .Nothing => some .EEPWrite
  | .RamWrite, .Nothing => some .RamWrite
  | .IJog, .Nothing => some .IJog
  | .SJog, .Nothing => some .SJog
  | .Stat, .Nothing => some .Stat
  | .Rollback, .Nothing => some .Rollback
  | .Reboot, .Nothing => some .Reboot
  | .EEPRead, .EEP data => some (.EEPRead data)
  | .RamRead, .Ram data => some (.RamRead data)
  | _, _ => none

/-- Source `struct ACKPacket` (`reader.rs`). -/
structure ACKPacket where
  psize : Nat
  pid : Nat
  cmd : Command
  chk1 : Nat
  chk2 : Nat
  error : StatusError
  detail : StatusDetail
  deriving DecidableEq, Repr

/-- The loop `for i in &data.data[0..data_len as usize] { chk1 ^= i }` of
`ACKPacket::is_valid`: XOR the first `data_len` bytes of the 2-byte data
array into `chk1`.  For `data_len > 2` the slice `data[0..data_len]` is out
of bounds on the `[u8; 2]` array, a panic: `none`. -/
def xorDataBytes (chk1 data_len : Nat) (data : Nat × Nat) : Option Nat :=
  match data_len with
  | 0 => some chk1
  | 1 => some (chk1 ^^^ data.1)
  | 2 => some ((chk1 ^^^ data.1) ^^^ data.2)
  | _ => none

/-- Source `ACKPacket::is_valid`: recompute `chk1` from size, id, opcode and (for
read commands) the address byte, length byte and data bytes, mask with
`0xFE`, and check it against the captured `chk1` and that the captured
`chk2` equals `!chk1 & 0xFE`. -/
def ACKPacket.is_valid (p : ACKPacket) : Option Bool := do
  let chk1 := (p.psize ^^^ p.pid) ^^^ p.cmd.toByte
  let chk1 ← match p.cmd with
    | .EEPRead data =>
        xorDataBytes ((chk1 ^^^ data.addr.toByte) ^^^ data.data_len)
          data.data_len data.data
    | .RamRead data =>
        xorDataBytes ((chk1 ^^^ data.addr.toByte) ^^^ data.data_len)
          data.data_len data.data
    | _ => some chk1
  let chk1 := chk1 &&& 0xFE
  pure (p.chk1 == chk1 && p.chk2 == (255 ^^^ chk1) &&& 0xFE)

/-- Source `enum ReaderState` (`reader.rs`): the parser state, carrying every field
decoded so far. -/
inductive ReaderState
  | H1
  | H2
  | Psize
  | Pid (size : Nat)
  | Cmd (size pid : Nat)
  | Checksum1 (size pid : Nat) (cmd : InternalCommand)
  | Checksum2 (size pid : Nat) (cmd : InternalCommand) (chk1 : Nat)
  | DataAddr (size pid : Nat) (cmd : InternalCommand) (chk1 chk2 : Nat)
  | DataLenEEP (size pid : Nat) (cmd : InternalCommand) (chk1 chk2 : Nat)
      (data : EEPReadData)
  | Data1EEP (size pid : Nat) (cmd : InternalCommand) (chk1 chk2 : Nat)
      (data : EEPReadData)
  | Data2EEP (size pid : Nat) (cmd : InternalCommand) (chk1 chk2 : Nat)
      (data : EEPReadData)
  | DataLenRAM (size pid : Nat) (cmd : InternalCommand) (chk1 chk2 : Nat)
      (data : RamReadData)
  | Data1RAM (size pid : Nat) (cmd : InternalCommand) (chk1 chk2 : Nat)
      (data : RamReadData)
  | Data2RAM (size pid : Nat) (cmd : InternalCommand) (chk1 chk2 : Nat)
      (data : RamReadData)
  | Error (size pid : Nat) (cmd : InternalCommand) (chk1 chk2 : Nat)
      (payload : AssociatedData)
  | Detail (size pid : Nat) (cmd : InternalCommand) (chk1 chk2 : Nat)
      (payload : AssociatedData) (status_error : StatusError)
  deriving DecidableEq, Repr

/-- Source `ReaderState::add_to_buffer`: assemble the packet, validate it, and
surface it only when `is_valid` holds.  The outer `Option` is panic
(`inject_payload` unreachable or the `is_valid` out-of-bounds slice); the
inner one is the emitted packet. -/
def ReaderState.add_to_buffer (size pid : Nat) (cmd : InternalCommand)
    (chk1 chk2 : Nat) (payload : AssociatedData) (status_error : StatusError)
    (status_detail : StatusDetail) : Option (Option ACKPacket) := do
  let cmd ← cmd.inject_payload payload
  let packet : ACKPacket :=
    { psize := size, pid := pid, cmd := cmd, chk1 := chk1, chk2 := chk2,
      error := status_error, detail := status_detail }
  let valid ← packet.is_valid
  pure (if valid then some packet else none)

/-- The opcode table of the `Cmd` arm of `ReaderState::step` (the
`let mut command: Option<InternalCommand>` match of the source). -/
def commandOfByte : Nat → Option InternalCommand
  | 0x41 => some .EEPWrite
  | 0x42 => some .EEPRead
  | 0x43 => some .RamWrite
  | 0x44 => some .RamRead
  | 0x45 => some .IJog
  | 0x46 => some .SJog
  | 0x47 => some .Stat
  | 0x48 => some .Rollback
  | 0x49 => some .Reboot
  | _ => none

/-- The byte-pattern table of the `Error` arm of `ReaderState::step`. -/
def statusErrorOfByte : Nat → Option StatusError
  | 0x00 => some .NoError
  | 0x01 => some .ExceedInputVoltageLimit
  | 0x02 => some .ExceedAllowedPOTLimit
  | 0x04 => some .ExceedTemperatureLimit
  | 0x08 => some .InvalidPacket
  | 0x10 => some .OverloadDetected
  | 0x20 => some .DriverFaultDetected
  | 0x40 => some .EEPREGDistorded
  | _ => none

/-- The byte-pattern table of the `Detail` arm of `ReaderState::step`. -/
def statusDetailOfByte : Nat → Option StatusDetail
  | 0x00 => some .NoDetail
  | 0x01 => some .MovingFlag
  | 0x02 => some .ImpositionFlag
  | 0x04 => some .ChecksumError
  | 0x08 => some .UnknownCommand
  | 0x10 => some .ExceedREGRange
  | 0x20 => some .GarbageDetected
  | 0x40 => some .MotorOnFlag
  | _ => none

/-- Source `ReaderState::step`: one transition of the acknowledgement parser on one
input byte, yielding the next state and an optional emitted packet.  A
`none` result models a source execution with no defined result (a panic, or
the missing arm of a non-exhaustive register-table `match`). -/
def ReaderState.step : ReaderState → Nat → Option (ReaderState × Option ACKPacket)
  | .H1, _ => some (.H2, none)
  | .H2, _ => some (.Psize, none)
  | .Psize, byte => some (.Pid byte, none)
  | .Pid size, byte => some (.Cmd size byte, none)
  | .Cmd size pid, byte =>
      match commandOfByte byte with
      | some command => some (.Checksum1 size pid command, none)
      | none => some (.H1, none)
  | .Checksum1 size pid cmd, byte => some (.Checksum2 size pid cmd byte, none)
  | .Checksum2 size pid cmd chk1, byte =>
      if cmd = .EEPRead ∨ cmd = .RamRead then
        some (.DataAddr size pid cmd chk1 byte, none)
      else
        some (.Error size pid cmd chk1 byte .Nothing, none)
  | .DataAddr size pid cmd chk1 chk2, byte =>
      match cmd with
      | .EEPRead =>
          match ReadableEEPAddr.try_from byte with
          | some data_addr =>
              some (.DataLenEEP size pid cmd chk1 chk2
                ⟨data_addr, 0, (0, 0)⟩, none)
          | none => none
      | .RamRead =>
          match ReadableRamAddr.try_from byte with
          | some data_addr =>
              some (.DataLenRAM size pid cmd chk1 chk2
                ⟨data_addr, 0, (0, 0)⟩, none)
          | none => none
      | _ => none
  | .DataLenEEP size pid cmd chk1 chk2 data, byte =>
      some (.Data1EEP size pid cmd chk1 chk2 ⟨data.addr, byte, (0, 0)⟩, none)
  | .DataLenRAM size pid cmd chk1 chk2 data, byte =>
      some (.Data1RAM size pid cmd chk1 chk2 ⟨data.addr, byte, (0, 0)⟩, none)
  | .Data1EEP size pid _ chk1 chk2 data, byte =>
      let new_data : EEPReadData := ⟨data.addr, data.data_len, (byte, 0)⟩
      if data.data_len = 2 then
        some (.Data2EEP size pid .EEPRead chk1 chk2 new_data, none)
      else
        some (.Error size pid .EEPRead chk1 chk2 (.EEP new_data), none)
  | .Data2EEP size pid cmd chk1 chk2 data, byte =>
      let new_data : EEPReadData := ⟨data.addr, data.data_len, (data.data.1, byte)⟩
      some (.Error size pid cmd chk1 chk2 (.EEP new_data), none)
  | .Data1RAM size pid _ chk1 chk2 data, byte =>
      let new_data : RamReadData := ⟨data.addr, data.data_len, (byte, 0)⟩
      if data.data_len = 2 then
        some (.Data2RAM size pid .RamRead chk1 chk2 new_data, none)
      else
        some (.Error size pid .RamRead chk1 chk2 (.Ram new_data), none)
  | .Data2RAM size pid cmd chk1 chk2 data, byte =>
      let new_data : RamReadData := ⟨data.addr, data.data_len, (data.data.1, byte)⟩
      some (.Error size pid cmd chk1 chk2 (.Ram new_data), none)
  | .Error size pid cmd chk1 chk2 payload, byte =>
      match statusErrorOfByte byte with
      | some status_error =>
          some (.Detail size pid cmd chk1 chk2 payload status_error, none)
      | none => some (.H1, none)
  | .Detail size pid cmd chk1 chk2 payload status_error, byte =>
      match statusDetailOfByte byte with
      | some status_detail =>
          match ReaderState.add_to_buffer size pid cmd chk1 chk2 payload
              status_error status_detail with
          | some result => some (.H1, result)
          | none => none
      | none => some (.H1, none)

/-- Source `struct ACKReader` (`reader.rs`). -/
structure ACKReader where
  state : ReaderState
  buffer : List ACKPacket
  deriving DecidableEq, Repr

/-- Source `ACKReader::new`. -/
def ACKReader.new : ACKReader := { state := .H1, buffer := [] }

/-- The `self.buffer.push(trame)` of `ACKReader::parse`.  Modelled from the
spec: the buffer is an `ArrayVec` of capacity
`TRAME_READER_INTERNAL_BUFFER_SIZE`, and the `arrayvec` dependency (whose
pinned version is not part of `src/`) is described by the spec as silently
dropping a push onto a full buffer. -/
def bufferPush (buffer : List ACKPacket) (trame : ACKPacket) : List ACKPacket :=
  if buffer.length < TRAME_READER_INTERNAL_BUFFER_SIZE then buffer ++ [trame]
  else buffer

/-- Source `ACKReader::parse`: feed the bytes one at a time to `ReaderState::step`,
pushing every emitted packet into the internal buffer. -/
def ACKReader.parse (r : ACKReader) : List Nat → Option ACKReader
  | [] => some r
  | byte :: rest =>
      match r.state.step byte with
      | none => none
      | some (s, result) =>
          ACKReader.parse
            { state := s,
              buffer := match result with
                        | some trame => bufferPush r.buffer trame
                        | none => r.buffer }
            rest

/-- Source `ACKReader::pop_ack_packet`, i.e. `self.buffer.pop()`: `ArrayVec::pop`
removes and returns the LAST element (the most recently pushed packet). -/
def ACKReader.pop_ack_packet (r : ACKReader) : Option ACKPacket × ACKReader :=
  (r.buffer.getLast?, { r with buffer := r.buffer.dropLast })

/-- Source `ACKReader::available_messages`. -/
def ACKReader.available_messages (r : ACKReader) : Nat := r.buffer.length

/-! ## servo.rs -/

/-- Source `Servo::set_position`: SJOG with the position clamped by
`min(position, 1023)`, color blue, playtime 60. -/
def Servo.set_position (id position : Nat) : Option (List Nat) :=
  (s_jog_new id 60 (.Normal (min position 1023)) .Blue id).build

/-- Source `Servo::set_speed`: SJOG with the speed clamped by `min(speed, 1023)`.
The source's struct literal `JogMode::Continuous { speed: min(speed, 1023) }`
omits the mandatory `rotation` field (it does not compile as written); the
default rotation sense `CounterClockwise` is used here. -/
def Servo.set_speed (id speed : Nat) : Option (List Nat) :=
  (s_jog_new id 60 (.Continuous (min speed 1023) .CounterClockwise) .Blue id).build

/-- Source `Servo::stat`. -/
def Servo.stat (id : Nat) : Option (List Nat) :=
  MessageBuilderSpecial.build { pid := id, kind := .Stat }

/-- Source `Servo::reboot`. -/
def Servo.reboot (id : Nat) : Option (List Nat) :=
  MessageBuilderSpecial.build { pid := id, kind := .Reboot }

/-! ## Spec-side definitions

The definitions below follow the specification's words (frame layout,
checksum formula, acknowledgement echoes); they are compared against the
source-derived definitions above. -/

/-- The spec's XOR-fold of a byte list. -/
def foldXor (l : List Nat) : Nat := l.foldl (fun a b => a ^^^ b) 0

/-- The outbound frame layout exactly as the spec states it:
`[0xFF, 0xFF, size, id, opcode, chk1, chk2, payload...]` with
`size = payload length + 7`,
`chk1 = (size ^ id ^ opcode ^ XOR-fold(payload)) & 0xFE` and
`chk2 = (~chk1) & 0xFE`. -/
def specFrame (id opcode : Nat) (payload : List Nat) : List Nat :=
  let size := payload.length + 7
  let chk1 := (((size ^^^ id) ^^^ opcode) ^^^ foldXor payload) &&& 0xFE
  let chk2 := (255 ^^^ chk1) &&& 0xFE
  [0xFF, 0xFF, size, id, opcode, chk1, chk2] ++ payload

/-- The wire opcode a `MessageBuilderMem::build` selects. -/
def memOpcode : RegisterRequest → Nat
  | .EEPWrite _ => 0x01
  | .EEPRead _ => 0x02
  | .RamWrite _ => 0x03
  | .RamRead _ => 0x04

/-- The payload bytes a `MessageBuilderMem::build` pushes:
`[address, length, value bytes...]` for writes, `[address, length]` for
reads. -/
def memPayload (m : MessageBuilderMem) : List Nat :=
  match m.addr with
  | .EEPWrite a =>
      [a.toByte, m.size, a.associated_data.1] ++
        (match a.associated_data.2 with
         | some d2 => [d2]
         | none => [])
  | .RamWrite a =>
      [a.toByte, m.size, a.associated_data.1] ++
        (match a.associated_data.2 with
         | some d2 => [d2]
         | none => [])
  | .EEPRead a => [a.toByte, m.size]
  | .RamRead a => [a.toByte, m.size]

/-- The wire opcode a `MessageBuilderSpecial::build` selects. -/
def specialOpcode : SpecialRequest → Nat
  | .Stat => 0x07
  | .Rollback _ _ => 0x08
  | .Reboot => 0x09

/-- The payload bytes a `MessageBuilderSpecial::build` pushes. -/
def specialPayload : SpecialRequest → List Nat
  | .Rollback id_bit baud_bit => [id_bit, baud_bit]
  | _ => []

/-- The payload bytes of an SJOG message: the shared playtime byte followed
by four bytes per entry. -/
def sjogPayload (m : MessageBuilderPositionSJOG) : List Nat :=
  m.pos.playtime :: (m.pos.data.map SJogData.bytesOf).flatten

/-- The payload bytes of an IJOG message: five bytes per entry. -/
def ijogPayload (m : MessageBuilderPositionIJOG) : List Nat :=
  (m.pos.map IJogData.bytesOf).flatten

/-- The spec's payload of an acknowledgement command, over which the two
checksums are defined: address byte, length byte and the first `data_len`
data bytes for read commands, nothing otherwise. -/
def ackPayload : Command → List Nat
  | .EEPRead d => [d.addr.toByte, d.data_len] ++ List.take d.data_len [d.data.1, d.data.2]
  | .RamRead d => [d.addr.toByte, d.data_len] ++ List.take d.data_len [d.data.1, d.data.2]
  | _ => []

/-- The well-formed acknowledgement echo of a RAM read request
`read_ram(pid, a, None)` (claim C5): the request's frame fields (size byte
`9`, id, address byte, transfer length `a.bytes`) with the acknowledgement
opcode `0x44`, recomputed checksums, the `a.bytes` data bytes the servo
answers with, and the valid status pair `0x00 0x00`. -/
def ramReadAck (pid : Nat) (a : ReadableRamAddr) (d1 d2 : Nat) : List Nat :=
  let ab := a.toByte
  let len := a.bytes
  let c1 :=
    (if len = 2 then (((((9 ^^^ pid) ^^^ 68) ^^^ ab) ^^^ len) ^^^ d1) ^^^ d2
     else ((((9 ^^^ pid) ^^^ 68) ^^^ ab) ^^^ len) ^^^ d1) &&& 254
  let c2 := (255 ^^^ c1) &&& 254
  [255, 255, 9, pid, 68, c1, c2, ab, len] ++
    (if len = 2 then [d1, d2] else [d1]) ++ [0, 0]

/-- The packet the parser decodes from `ramReadAck`: it carries the
request's register address and transfer length. -/
def ramReadAckPacket (pid : Nat) (a : ReadableRamAddr) (d1 d2 : Nat) : ACKPacket :=
  let ab := a.toByte
  let len := a.bytes
  let c1 :=
    (if len = 2 then (((((9 ^^^ pid) ^^^ 68) ^^^ ab) ^^^ len) ^^^ d1) ^^^ d2
     else ((((9 ^^^ pid) ^^^ 68) ^^^ ab) ^^^ len) ^^^ d1) &&& 254
  { psize := 9, pid := pid,
    cmd := .RamRead ⟨a, len, (d1, if len = 2 then d2 else 0)⟩,
    chk1 := c1, chk2 := (255 ^^^ c1) &&& 254,
    error := .NoError, detail := .NoDetail }

/-- The well-formed acknowledgement echo of an EEP read request
`read_eep(pid, a, None)`, as `ramReadAck`. -/
def eepReadAck (pid : Nat) (a : ReadableEEPAddr) (d1 d2 : Nat) : List Nat :=
  let ab := a.toByte
  let len := a.bytes
  let c1 :=
    (if len = 2 then (((((9 ^^^ pid) ^^^ 66) ^^^ ab) ^^^ len) ^^^ d1) ^^^ d2
     else ((((9 ^^^ pid) ^^^ 66) ^^^ ab) ^^^ len) ^^^ d1) &&& 254
  let c2 := (255 ^^^ c1) &&& 254
  [255, 255, 9, pid, 66, c1, c2, ab, len] ++
    (if len = 2 then [d1, d2] else [d1]) ++ [0, 0]

/-- The packet the parser decodes from `eepReadAck`. -/
def eepReadAckPacket (pid : Nat) (a : ReadableEEPAddr) (d1 d2 : Nat) : ACKPacket :=
  let ab := a.toByte
  let len := a.bytes
  let c1 :=
    (if len = 2 then (((((9 ^^^ pid) ^^^ 66) ^^^ ab) ^^^ len) ^^^ d1) ^^^ d2
     else ((((9 ^^^ pid) ^^^ 66) ^^^ ab) ^^^ len) ^^^ d1) &&& 254
  { psize := 9, pid := pid,
    cmd := .EEPRead ⟨a, len, (d1, if len = 2 then d2 else 0)⟩,
    chk1 := c1, chk2 := (255 ^^^ c1) &&& 254,
    error := .NoError, detail := .NoDetail }

/-- Claim C2's failing wire input: a framed EEP-read acknowledgement whose
data-length byte is `3` (address `0x1E` is `PositionKp`; the status pair
`0x08 0x20` is valid).  At the final byte `ACKPacket::is_valid` slices
`data[0..3]` out of a `[u8; 2]` array. -/
def c2FailingInput : List Nat :=
  [0xFF, 0xFF, 0x0F, 0xFD, 0x42, 0x00, 0x00, 0x1E, 0x03, 0xB8, 0x08, 0x20]

/-- Claim C5's literal acknowledgement-shaped echo of the encoded request
`write_ram(0xFD, TorqueControl(0x60))`
(`[0xFF,0xFF,0x0A,0xFD,0x03,0xA0,0x5E,0x34,0x01,0x60]`): the same frame
fields with the acknowledgement opcode `0x43`, the checksums recomputed for
that opcode, and a valid status pair appended. -/
def c5WriteEcho : List Nat :=
  [0xFF, 0xFF, 0x0A, 0xFD, 0x43, 0xE0, 0x1E, 0x34, 0x01, 0x60, 0x00, 0x00]

/-! ## Helper lemmas -/

theorem foldl_xor_shift (l : List Nat) (a : Nat) :
    l.foldl (fun x b => x ^^^ b) a = a ^^^ foldXor l := by
  induction l generalizing a with
  | nil => simp [foldXor]
  | cons b t ih =>
      simp only [foldXor, List.foldl_cons] at *
      rw [ih (a ^^^ b), ih (0 ^^^ b), Nat.zero_xor, Nat.xor_assoc]

theorem push_data_some {p q : Packet} {b : Nat} (h : p.push_data b = some q) :
    q = { p with data := p.data ++ [b] } := by
  rw [Packet.push_data] at h
  split_ifs at h
  exact (Option.some.inj h).symm

theorem push_data_le {p q : Packet} {b : Nat} (h : p.push_data b = some q) :
    q.data.length ≤ 16 := by
  rw [Packet.push_data] at h
  split_ifs at h with hc
  rw [← Option.some.inj h]
  simp only [List.length_append, List.length_cons, List.length_nil]
  omega

theorem Packet.build_spec (p : Packet) (h : p.data.length ≤ 16) :
    p.build = specFrame p.pid p.cmd p.data := by
  rw [Packet.build, specFrame]
  have hs : (p.data.length + 7) % 256 = p.data.length + 7 :=
    Nat.mod_eq_of_lt (by omega)
  rw [hs, foldl_xor_shift]
  rfl

/-! ## Claim theorems -/

/-- Claim C1 counterexample: in the initial state `H1` the step on the
byte `0x00` (which is not `0xFF`) does NOT stay in `H1` — it advances to
`H2`, contrary to the claimed resync-tolerant sync check. -/
theorem c1_counterexample :
    ReaderState.step .H1 0 = some (.H2, none) ∧ ReaderState.H2 ≠ ReaderState.H1 :=
  ⟨rfl, by decide⟩

/-- Claim C1 (amended): the two sync states of `ReaderState::step` do not
inspect the input byte at all: from `H1` every byte advances to `H2`, and
from `H2` every byte advances to `Psize`; the `0xFF 0xFF` header is
consumed positionally, never validated. -/
theorem c1_sync_unconditional (b : Nat) :
    ReaderState.step .H1 b = some (.H2, none) ∧
    ReaderState.step .H2 b = some (.Psize, none) :=
  ⟨rfl, rfl⟩

/-- Claim C2: parsing is NOT total.  On the framed EEP-read acknowledgement
`c2FailingInput`, whose data-length byte is `3`, the final
status-detail step calls `ACKPacket::is_valid`, which slices
`data[0..3]` out of the `[u8; 2]` data array — a panic, modelled as the
parser step having no defined result (`none`). -/
theorem c2_data_len_panic :
    ACKReader.parse ACKReader.new c2FailingInput = none := by decide

/-- Claim C6: `pop_ack_packet` does not return the oldest buffered packet.
After parsing two valid stat acknowledgements (first from id 1, then from
id 2), the buffer holds both packets in arrival order, yet
`pop_ack_packet` (which is `ArrayVec::pop`, i.e. remove-last) returns the
packet of the SECOND frame, although its own documentation says it returns
the oldest. -/
theorem c6_pop_newest :
    ACKReader.parse ACKReader.new
        [255, 255, 9, 1, 71, 78, 176, 0, 0, 255, 255, 9, 2, 71, 76, 178, 0, 0] =
      some { state := .H1,
             buffer := [⟨9, 1, .Stat, 78, 176, .NoError, .NoDetail⟩,
                        ⟨9, 2, .Stat, 76, 178, .NoError, .NoDetail⟩] } ∧
    ACKReader.pop_ack_packet
        { state := .H1,
          buffer := [⟨9, 1, .Stat, 78, 176, .NoError, .NoDetail⟩,
                     ⟨9, 2, .Stat, 76, 178, .NoError, .NoDetail⟩] } =
      (some ⟨9, 2, .Stat, 76, 178, .NoError, .NoDetail⟩,
       { state := .H1, buffer := [⟨9, 1, .Stat, 78, 176, .NoError, .NoDetail⟩] }) ∧
    (⟨9, 2, .Stat, 76, 178, .NoError, .NoDetail⟩ : ACKPacket) ≠
      ⟨9, 1, .Stat, 78, 176, .NoError, .NoDetail⟩ := by
  refine ⟨by decide, by decide, by decide⟩

/-- Claim C8: the reverse lookups are NOT total.  Byte `4` is absent from
the readable-RAM table and byte `5` from the readable-EEP table, and for
them the source `match` has no arm at all (a non-exhaustive match, with no
defined result) instead of the claimed `InvalidAddress` error; only the
writable-EEP lookup has the catch-all `Err(Error::InvalidAddress)` arm.
On the bytes present in a table, each lookup does return the unique
variant with that wire address. -/
theorem c8_reverse_lookup :
    ReadableRamAddr.try_from 4 = none ∧
    ReadableEEPAddr.try_from 5 = none ∧
    WritableEEPAddr.try_from 5 = .error .InvalidAddress ∧
    (∀ a : ReadableRamAddr, ReadableRamAddr.try_from a.toByte = some a) ∧
    (∀ a : ReadableEEPAddr, ReadableEEPAddr.try_from a.toByte = some a) ∧
    (∀ a : WritableEEPAddr, ∃ a2 : WritableEEPAddr,
      WritableEEPAddr.try_from a.toByte = .ok a2 ∧ a2.toByte = a.toByte) :=
  ⟨rfl, rfl, rfl,
   fun a => by cases a <;> rfl,
   fun a => by cases a <;> rfl,
   fun a => by cases a <;> exact ⟨_, rfl, rfl⟩⟩


theorem mem_build_spec (m : MessageBuilderMem) :
    m.build = some (specFrame m.pid (memOpcode m.addr) (memPayload m)) := by
  obtain ⟨pid, addr, size⟩ := m
  cases addr with
  | EEPWrite a =>
      rcases ha : a.associated_data with ⟨d1, o⟩
      cases o with
      | none =>
          have h1 : MessageBuilderMem.build ⟨pid, .EEPWrite a, size⟩ =
              some (Packet.build ⟨pid, 1, [a.toByte, size, d1]⟩) := by
            simp [MessageBuilderMem.build, Packet.push_data, ha]
          rw [h1, Packet.build_spec _ (by simp)]
          simp [memOpcode, memPayload, ha]
      | some d2 =>
          have h1 : MessageBuilderMem.build ⟨pid, .EEPWrite a, size⟩ =
              some (Packet.build ⟨pid, 1, [a.toByte, size, d1, d2]⟩) := by
            simp [MessageBuilderMem.build, Packet.push_data, ha]
          rw [h1, Packet.build_spec _ (by simp)]
          simp [memOpcode, memPayload, ha]
  | RamWrite a =>
      rcases ha : a.associated_data with ⟨d1, o⟩
      cases o with
      | none =>
          have h1 : MessageBuilderMem.build ⟨pid, .RamWrite a, size⟩ =
              some (Packet.build ⟨pid, 3, [a.toByte, size, d1]⟩) := by
            simp [MessageBuilderMem.build, Packet.push_data, ha]
          rw [h1, Packet.build_spec _ (by simp)]
          simp [memOpcode, memPayload, ha]
      | some d2 =>
          have h1 : MessageBuilderMem.build ⟨pid, .RamWrite a, size⟩ =
              some (Packet.build ⟨pid, 3, [a.toByte, size, d1, d2]⟩) := by
            simp [MessageBuilderMem.build, Packet.push_data, ha]
          rw [h1, Packet.build_spec _ (by simp)]
          simp [memOpcode, memPayload, ha]
  | EEPRead a =>
      have h1 : MessageBuilderMem.build ⟨pid, .EEPRead a, size⟩ =
          some (Packet.build ⟨pid, 2, [a.toByte, size]⟩) := by
        simp [MessageBuilderMem.build, Packet.push_data]
      rw [h1, Packet.build_spec _ (by simp)]
      simp [memOpcode, memPayload]
  | RamRead a =>
      have h1 : MessageBuilderMem.build ⟨pid, .RamRead a, size⟩ =
          some (Packet.build ⟨pid, 4, [a.toByte, size]⟩) := by
        simp [MessageBuilderMem.build, Packet.push_data]
      rw [h1, Packet.build_spec _ (by simp)]
      simp [memOpcode, memPayload]

theorem special_build_spec (m : MessageBuilderSpecial) :
    m.build = some (specFrame m.pid (specialOpcode m.kind) (specialPayload m.kind)) := by
  obtain ⟨pid, kind⟩ := m
  cases kind with
  | Stat =>
      have h1 : MessageBuilderSpecial.build ⟨pid, .Stat⟩ =
          some (Packet.build ⟨pid, 7, []⟩) := by
        simp [MessageBuilderSpecial.build]
      rw [h1, Packet.build_spec _ (by simp)]
      simp [specialOpcode, specialPayload]
  | Reboot =>
      have h1 : MessageBuilderSpecial.build ⟨pid, .Reboot⟩ =
          some (Packet.build ⟨pid, 9, []⟩) := by
        simp [MessageBuilderSpecial.build]
      rw [h1, Packet.build_spec _ (by simp)]
      simp [specialOpcode, specialPayload]
  | Rollback i b =>
      have h1 : MessageBuilderSpecial.build ⟨pid, .Rollback i b⟩ =
          some (Packet.build ⟨pid, 8, [i, b]⟩) := by
        simp [MessageBuilderSpecial.build, Packet.push_data]
      rw [h1, Packet.build_spec _ (by simp)]
      simp [specialOpcode, specialPayload]


theorem bind_some_elim {α β : Type} {x : Option α} {f : α → Option β} {b : β}
    (h : x >>= f = some b) : ∃ a, x = some a ∧ f a = some b := by
  cases x with
  | none => simp at h
  | some a => exact ⟨a, rfl, h⟩

theorem sjogPushEntry_spec {p q : Packet} {e : SJogData}
    (h : sjogPushEntry p e = some q) :
    q = { p with data := p.data ++ e.bytesOf } := by
  rw [sjogPushEntry] at h
  obtain ⟨p1, h1, h⟩ := bind_some_elim h
  obtain ⟨p2, h2, h⟩ := bind_some_elim h
  obtain ⟨p3, h3, h⟩ := bind_some_elim h
  rw [push_data_some h1] at h2
  rw [push_data_some h2] at h3
  rw [push_data_some h3] at h
  rw [push_data_some h]
  simp [SJogData.bytesOf]

theorem sjogPushEntry_le {p q : Packet} {e : SJogData}
    (h : sjogPushEntry p e = some q) : q.data.length ≤ 16 := by
  rw [sjogPushEntry] at h
  obtain ⟨p1, h1, h⟩ := bind_some_elim h
  obtain ⟨p2, h2, h⟩ := bind_some_elim h
  obtain ⟨p3, h3, h⟩ := bind_some_elim h
  exact push_data_le h

theorem sjog_fold_spec (l : List SJogData) :
    ∀ p q : Packet, List.foldlM sjogPushEntry p l = some q →
      q = { p with data := p.data ++ (l.map SJogData.bytesOf).flatten } := by
  induction l with
  | nil =>
      intro p q h
      simp only [List.foldlM_nil] at h
      simp [← Option.some.inj h]
  | cons e t ih =>
      intro p q h
      simp only [List.foldlM_cons] at h
      obtain ⟨p1, h1, h⟩ := bind_some_elim h
      rw [ih p1 q h, sjogPushEntry_spec h1]
      simp

theorem sjog_fold_le (l : List SJogData) :
    ∀ p q : Packet, List.foldlM sjogPushEntry p l = some q →
      q.data.length ≤ 16 ∨ q = p := by
  induction l with
  | nil =>
      intro p q h
      simp only [List.foldlM_nil] at h
      exact Or.inr (Option.some.inj h).symm
  | cons e t ih =>
      intro p q h
      simp only [List.foldlM_cons] at h
      obtain ⟨p1, h1, h⟩ := bind_some_elim h
      rcases ih p1 q h with hle | heq
      · exact Or.inl hle
      · exact Or.inl (heq ▸ sjogPushEntry_le h1)

theorem sjog_build_spec (m : MessageBuilderPositionSJOG) (msg : List Nat)
    (h : m.build = some msg) : msg = specFrame m.pid 6 (sjogPayload m) := by
  rw [MessageBuilderPositionSJOG.build] at h
  obtain ⟨p1, h1, h⟩ := bind_some_elim h
  obtain ⟨p2, h2, h⟩ := bind_some_elim h
  have hp1 : p1 = { pid := m.pid, cmd := 6, data := [m.pos.playtime] } := by
    simpa using push_data_some h1
  subst hp1
  have hlen : p2.data.length ≤ 16 := by
    rcases sjog_fold_le m.pos.data _ _ h2 with hle | heq
    · exact hle
    · rw [heq]; simp
  have hp2 := sjog_fold_spec m.pos.data _ _ h2
  subst hp2
  have hmsg := h
  simp only [Option.pure_def, Option.some.injEq] at hmsg
  rw [← hmsg, Packet.build_spec _ hlen]
  simp [sjogPayload]


theorem ijogPushEntry_spec {p q : Packet} {e : IJogData}
    (h : ijogPushEntry p e = some q) :
    q = { p with data := p.data ++ e.bytesOf } := by
  rw [ijogPushEntry] at h
  obtain ⟨p1, h1, h⟩ := bind_some_elim h
  obtain ⟨p2, h2, h⟩ := bind_some_elim h
  obtain ⟨p3, h3, h⟩ := bind_some_elim h
  obtain ⟨p4, h4, h⟩ := bind_some_elim h
  rw [push_data_some h1] at h2
  rw [push_data_some h2] at h3
  rw [push_data_some h3] at h4
  rw [push_data_some h4] at h
  rw [push_data_some h]
  simp [IJogData.bytesOf]

theorem ijogPushEntry_le {p q : Packet} {e : IJogData}
    (h : ijogPushEntry p e = some q) : q.data.length ≤ 16 := by
  rw [ijogPushEntry] at h
  obtain ⟨p1, h1, h⟩ := bind_some_elim h
  obtain ⟨p2, h2, h⟩ := bind_some_elim h
  obtain ⟨p3, h3, h⟩ := bind_some_elim h
  obtain ⟨p4, h4, h⟩ := bind_some_elim h
  exact push_data_le h

theorem ijog_fold_spec (l : List IJogData) :
    ∀ p q : Packet, List.foldlM ijogPushEntry p l = some q →
      q = { p with data := p.data ++ (l.map IJogData.bytesOf).flatten } := by
  induction l with
  | nil =>
      intro p q h
      simp only [List.foldlM_nil] at h
      simp [← Option.some.inj h]
  | cons e t ih =>
      intro p q h
      simp only [List.foldlM_cons] at h
      obtain ⟨p1, h1, h⟩ := bind_some_elim h
      rw [ih p1 q h, ijogPushEntry_spec h1]
      simp

theorem ijog_fold_le (l : List IJogData) :
    ∀ p q : Packet, List.foldlM ijogPushEntry p l = some q →
      q.data.length ≤ 16 ∨ q = p := by
  induction l with
  | nil =>
      intro p q h
      simp only [List.foldlM_nil] at h
      exact Or.inr (Option.some.inj h).symm
  | cons e t ih =>
      intro p q h
      simp only [List.foldlM_cons] at h
      obtain ⟨p1, h1, h⟩ := bind_some_elim h
      rcases ih p1 q h with hle | heq
      · exact Or.inl hle
      · exact Or.inl (heq ▸ ijogPushEntry_le h1)

theorem ijog_build_spec (m : MessageBuilderPositionIJOG) (msg : List Nat)
    (h : m.build = some msg) : msg = specFrame m.pid 5 (ijogPayload m) := by
  rw [MessageBuilderPositionIJOG.build] at h
  obtain ⟨p2, h2, h⟩ := bind_some_elim h
  have hlen : p2.data.length ≤ 16 := by
    rcases ijog_fold_le m.pos _ _ h2 with hle | heq
    · exact hle
    · rw [heq]; simp
  have hp2 := ijog_fold_spec m.pos _ _ h2
  subst hp2
  have hmsg := h
  simp only [Option.pure_def, Option.some.injEq] at hmsg
  rw [← hmsg, Packet.build_spec _ hlen]
  simp [ijogPayload]

/-- Claim C3: every message produced by a builder `build` is
`[0xFF, 0xFF, size, id, opcode, chk1, chk2, payload...]` with
`size = payload length + 7`,
`chk1 = (size ^ id ^ opcode ^ XOR-fold(payload)) & 0xFE` and
`chk2 = (~chk1) & 0xFE` — the register builds and special builds always
produce exactly that frame, and every SJOG/IJOG build that produces a
message produces exactly that frame over its jog payload. -/
theorem c3_build_layout :
    (∀ m : MessageBuilderMem,
        m.build = some (specFrame m.pid (memOpcode m.addr) (memPayload m))) ∧
    (∀ m : MessageBuilderSpecial,
        m.build = some (specFrame m.pid (specialOpcode m.kind) (specialPayload m.kind))) ∧
    (∀ (m : MessageBuilderPositionSJOG) (msg : List Nat),
        m.build = some msg → msg = specFrame m.pid 6 (sjogPayload m)) ∧
    (∀ (m : MessageBuilderPositionIJOG) (msg : List Nat),
        m.build = some msg → msg = specFrame m.pid 5 (ijogPayload m)) :=
  ⟨mem_build_spec, special_build_spec, sjog_build_spec, ijog_build_spec⟩

/-- Claim C3 witness: the layout theorem applied to the SJOG and IJOG
builders of the source's own test vectors, with the build hypothesis
discharged by evaluation. -/
theorem c3_build_layout_witness :
    ([255, 255, 12, 253, 6, 48, 206, 60, 0, 2, 4, 253] : List Nat) =
      specFrame 253 6 (sjogPayload (s_jog_new 253 60 (.Normal 512) .Green 253)) ∧
    ([255, 255, 12, 253, 5, 50, 204, 0, 2, 4, 253, 60] : List Nat) =
      specFrame 253 5 (ijogPayload (i_jog_new 253 60 (.Normal 512) .Green 253)) :=
  ⟨c3_build_layout.2.2.1 (s_jog_new 253 60 (.Normal 512) .Green 253) _ (by decide),
   c3_build_layout.2.2.2 (i_jog_new 253 60 (.Normal 512) .Green 253) _ (by decide)⟩



theorem is_valid_spec {p : ACKPacket} (h : p.is_valid = some true) :
    p.chk1 = (((p.psize ^^^ p.pid) ^^^ p.cmd.toByte) ^^^
      foldXor (ackPayload p.cmd)) &&& 254 ∧
    p.chk2 = (255 ^^^ p.chk1) &&& 254 := by
  obtain ⟨psize, pid, cmd, chk1, chk2, err, det⟩ := p
  cases cmd with
  | EEPRead d =>
      obtain ⟨addr, len, x, y⟩ := d
      rw [ACKPacket.is_valid] at h
      rcases len with _ | _ | _ | len
      · simp only [xorDataBytes] at h
        obtain ⟨v, hv, h⟩ := bind_some_elim h
        rw [← Option.some.inj hv] at h
        rw [show (pure : Bool → Option Bool) = some from rfl] at h
        have hb := Option.some.inj h
        rw [Bool.and_eq_true, beq_iff_eq, beq_iff_eq] at hb
        obtain ⟨h1, h2⟩ := hb
        refine ⟨?_, by rw [← h1] at h2; exact h2⟩
        rw [h1]
        simp [ackPayload, foldXor, Command.toByte, Nat.zero_xor, Nat.xor_assoc]
      · simp only [xorDataBytes] at h
        obtain ⟨v, hv, h⟩ := bind_some_elim h
        rw [← Option.some.inj hv] at h
        rw [show (pure : Bool → Option Bool) = some from rfl] at h
        have hb := Option.some.inj h
        rw [Bool.and_eq_true, beq_iff_eq, beq_iff_eq] at hb
        obtain ⟨h1, h2⟩ := hb
        refine ⟨?_, by rw [← h1] at h2; exact h2⟩
        rw [h1]
        simp [ackPayload, foldXor, Command.toByte, Nat.zero_xor, Nat.xor_assoc]
      · simp only [xorDataBytes] at h
        obtain ⟨v, hv, h⟩ := bind_some_elim h
        rw [← Option.some.inj hv] at h
        rw [show (pure : Bool → Option Bool) = some from rfl] at h
        have hb := Option.some.inj h
        rw [Bool.and_eq_true, beq_iff_eq, beq_iff_eq] at hb
        obtain ⟨h1, h2⟩ := hb
        refine ⟨?_, by rw [← h1] at h2; exact h2⟩
        rw [h1]
        simp [ackPayload, foldXor, Command.toByte, Nat.zero_xor, Nat.xor_assoc]
      · simp only [xorDataBytes] at h
        simp at h
  | RamRead d =>
      obtain ⟨addr, len, x, y⟩ := d
      rw [ACKPacket.is_valid] at h
      rcases len with _ | _ | _ | len
      · simp only [xorDataBytes] at h
        obtain ⟨v, hv, h⟩ := bind_some_elim h
        rw [← Option.some.inj hv] at h
        rw [show (pure : Bool → Option Bool) = some from rfl] at h
        have hb := Option.some.inj h
        rw [Bool.and_eq_true, beq_iff_eq, beq_iff_eq] at hb
        obtain ⟨h1, h2⟩ := hb
        refine ⟨?_, by rw [← h1] at h2; exact h2⟩
        rw [h1]
        simp [ackPayload, foldXor, Command.toByte, Nat.zero_xor, Nat.xor_assoc]
      · simp only [xorDataBytes] at h
        obtain ⟨v, hv, h⟩ := bind_some_elim h
        rw [← Option.some.inj hv] at h
        rw [show (pure : Bool → Option Bool) = some from rfl] at h
        have hb := Option.some.inj h
        rw [Bool.and_eq_true, beq_iff_eq, beq_iff_eq] at hb
        obtain ⟨h1, h2⟩ := hb
        refine ⟨?_, by rw [← h1] at h2; exact h2⟩
        rw [h1]
        simp [ackPayload, foldXor, Command.toByte, Nat.zero_xor, Nat.xor_assoc]
      · simp only [xorDataBytes] at h
        obtain ⟨v, hv, h⟩ := bind_some_elim h
        rw [← Option.some.inj hv] at h
        rw [show (pure : Bool → Option Bool) = some from rfl] at h
        have hb := Option.some.inj h
        rw [Bool.and_eq_true, beq_iff_eq, beq_iff_eq] at hb
        obtain ⟨h1, h2⟩ := hb
        refine ⟨?_, by rw [← h1] at h2; exact h2⟩
        rw [h1]
        simp [ackPayload, foldXor, Command.toByte, Nat.zero_xor, Nat.xor_assoc]
      · simp only [xorDataBytes] at h
        simp at h
  | EEPWrite =>
      rw [ACKPacket.is_valid] at h
      simp only [] at h
      rw [show (pure : Bool → Option Bool) = some from rfl] at h
      have hb := Option.some.inj h
      rw [Bool.and_eq_true, beq_iff_eq, beq_iff_eq] at hb
      obtain ⟨h1, h2⟩ := hb
      refine ⟨?_, by rw [← h1] at h2; exact h2⟩
      rw [h1]
      simp [ackPayload, foldXor, Command.toByte]
  | RamWrite =>
      rw [ACKPacket.is_valid] at h
      simp only [] at h
      rw [show (pure : Bool → Option Bool) = some from rfl] at h
      have hb := Option.some.inj h
      rw [Bool.and_eq_true, beq_iff_eq, beq_iff_eq] at hb
      obtain ⟨h1, h2⟩ := hb
      refine ⟨?_, by rw [← h1] at h2; exact h2⟩
      rw [h1]
      simp [ackPayload, foldXor, Command.toByte]
  | IJog =>
      rw [ACKPacket.is_valid] at h
      simp only [] at h
      rw [show (pure : Bool → Option Bool) = some from rfl] at h
      have hb := Option.some.inj h
      rw [Bool.and_eq_true, beq_iff_eq, beq_iff_eq] at hb
      obtain ⟨h1, h2⟩ := hb
      refine ⟨?_, by rw [← h1] at h2; exact h2⟩
      rw [h1]
      simp [ackPayload, foldXor, Command.toByte]
  | SJog =>
      rw [ACKPacket.is_valid] at h
      simp only [] at h
      rw [show (pure : Bool → Option Bool) = some from rfl] at h
      have hb := Option.some.inj h
      rw [Bool.and_eq_true, beq_iff_eq, beq_iff_eq] at hb
      obtain ⟨h1, h2⟩ := hb
      refine ⟨?_, by rw [← h1] at h2; exact h2⟩
      rw [h1]
      simp [ackPayload, foldXor, Command.toByte]
  | Stat =>
      rw [ACKPacket.is_valid] at h
      simp only [] at h
      rw [show (pure : Bool → Option Bool) = some from rfl] at h
      have hb := Option.some.inj h
      rw [Bool.and_eq_true, beq_iff_eq, beq_iff_eq] at hb
      obtain ⟨h1, h2⟩ := hb
      refine ⟨?_, by rw [← h1] at h2; exact h2⟩
      rw [h1]
      simp [ackPayload, foldXor, Command.toByte]
  | Rollback =>
      rw [ACKPacket.is_valid] at h
      simp only [] at h
      rw [show (pure : Bool → Option Bool) = some from rfl] at h
      have hb := Option.some.inj h
      rw [Bool.and_eq_true, beq_iff_eq, beq_iff_eq] at hb
      obtain ⟨h1, h2⟩ := hb
      refine ⟨?_, by rw [← h1] at h2; exact h2⟩
      rw [h1]
      simp [ackPayload, foldXor, Command.toByte]
  | Reboot =>
      rw [ACKPacket.is_valid] at h
      simp only [] at h
      rw [show (pure : Bool → Option Bool) = some from rfl] at h
      have hb := Option.some.inj h
      rw [Bool.and_eq_true, beq_iff_eq, beq_iff_eq] at hb
      obtain ⟨h1, h2⟩ := hb
      refine ⟨?_, by rw [← h1] at h2; exact h2⟩
      rw [h1]
      simp [ackPayload, foldXor, Command.toByte]


/-- Claim C4: whenever the step from a `Detail` state returns normally, the
parser is back in the initial state `H1` regardless of validation outcome,
and a packet is emitted only if `is_valid` holds, i.e. only if the
recomputed checksum1 (the encoder's `(size ^ id ^ opcode ^
XOR-fold(payload)) & 0xFE` formula) equals the captured checksum1 and the
captured checksum2 equals `(~chk1) & 0xFE`. -/
theorem c4_detail_gate (size pid : Nat) (cmd : InternalCommand) (chk1 chk2 : Nat)
    (payload : AssociatedData) (se : StatusError) (b : Nat)
    (s2 : ReaderState) (out : Option ACKPacket)
    (h : ReaderState.step (.Detail size pid cmd chk1 chk2 payload se) b = some (s2, out)) :
    s2 = .H1 ∧
    ∀ p, out = some p →
      p.is_valid = some true ∧
      p.chk1 = (((p.psize ^^^ p.pid) ^^^ p.cmd.toByte) ^^^
        foldXor (ackPayload p.cmd)) &&& 254 ∧
      p.chk2 = (255 ^^^ p.chk1) &&& 254 := by
  rw [ReaderState.step] at h
  cases hd : statusDetailOfByte b with
  | none =>
      rw [hd] at h
      simp only [Option.some.injEq, Prod.mk.injEq] at h
      obtain ⟨hs, ho⟩ := h
      refine ⟨hs.symm, fun p hp => ?_⟩
      rw [← ho] at hp
      cases hp
  | some sd =>
      rw [hd] at h
      simp only [] at h
      cases ha : ReaderState.add_to_buffer size pid cmd chk1 chk2 payload se sd with
      | none => rw [ha] at h; cases h
      | some res =>
          rw [ha] at h
          simp only [Option.some.injEq, Prod.mk.injEq] at h
          obtain ⟨hs, ho⟩ := h
          refine ⟨hs.symm, fun p hp => ?_⟩
          rw [← ho] at hp
          rw [ReaderState.add_to_buffer] at ha
          obtain ⟨c, hc, ha⟩ := bind_some_elim ha
          obtain ⟨v, hv, ha⟩ := bind_some_elim ha
          rw [show (pure : Option ACKPacket → Option (Option ACKPacket)) = some from rfl] at ha
          have hres := Option.some.inj ha
          cases v with
          | false => rw [← hres] at hp; cases hp
          | true =>
              rw [← hres] at hp
              simp only [if_true] at hp
              have hpv : p.is_valid = some true := by
                rw [← Option.some.inj hp]; exact hv
              exact ⟨hpv, is_valid_spec hpv⟩

/-- Claim C4 witness: the gate theorem applied to the final step of the
source's own SJOG test frame, whose checksums verify. -/
theorem c4_detail_gate_witness :
    ReaderState.H1 = ReaderState.H1 ∧
    ∀ p, (some ⟨9, 253, .SJog, 178, 76, .InvalidPacket, .UnknownCommand⟩ :
        Option ACKPacket) = some p →
      p.is_valid = some true ∧
      p.chk1 = (((p.psize ^^^ p.pid) ^^^ p.cmd.toByte) ^^^
        foldXor (ackPayload p.cmd)) &&& 254 ∧
      p.chk2 = (255 ^^^ p.chk1) &&& 254 :=
  c4_detail_gate 9 253 .SJog 178 76 .Nothing .InvalidPacket 8 .H1
    (some ⟨9, 253, .SJog, 178, 76, .InvalidPacket, .UnknownCommand⟩) (by decide)

theorem parse_buffer_le (input : List Nat) :
    ∀ r r2 : ACKReader, r.buffer.length ≤ TRAME_READER_INTERNAL_BUFFER_SIZE →
      r.parse input = some r2 →
      r2.buffer.length ≤ TRAME_READER_INTERNAL_BUFFER_SIZE := by
  induction input with
  | nil =>
      intro r r2 hr h
      rw [ACKReader.parse] at h
      rw [← Option.some.inj h]
      exact hr
  | cons b rest ih =>
      intro r r2 hr h
      rw [ACKReader.parse] at h
      cases hs : r.state.step b with
      | none => rw [hs] at h; cases h
      | some pr =>
          obtain ⟨s, res⟩ := pr
          rw [hs] at h
          refine ih _ _ ?_ h
          cases res with
          | none => exact hr
          | some t =>
              simp only [bufferPush]
              split_ifs with hlt
              · simpa using hlt
              · exact hr

/-- Claim C9: starting from a fresh reader, parsing any byte sequence that
returns normally leaves at most `TRAME_READER_INTERNAL_BUFFER_SIZE` (64)
packets in the buffer, and a push onto a buffer already holding 64 packets
silently drops the new packet, leaving the buffer unchanged. -/
theorem c9_buffer_bound :
    (∀ (input : List Nat) (r2 : ACKReader),
        ACKReader.new.parse input = some r2 →
        r2.buffer.length ≤ TRAME_READER_INTERNAL_BUFFER_SIZE) ∧
    (∀ (buffer : List ACKPacket) (p : ACKPacket),
        buffer.length = TRAME_READER_INTERNAL_BUFFER_SIZE →
        bufferPush buffer p = buffer) := by
  constructor
  · intro input r2 h
    exact parse_buffer_le input ACKReader.new r2 (by simp [ACKReader.new]) h
  · intro buffer p h
    simp [bufferPush, h]

/-- Claim C9 witness: the bound theorem applied to a concrete parse of one
valid stat frame, and the drop clause applied to a concrete full buffer. -/
theorem c9_buffer_bound_witness :
    ({ state := .H1,
       buffer := [⟨9, 1, .Stat, 78, 176, .NoError, .NoDetail⟩] } : ACKReader).buffer.length ≤
      TRAME_READER_INTERNAL_BUFFER_SIZE ∧
    bufferPush (List.replicate 64 ⟨9, 1, .Stat, 78, 176, .NoError, .NoDetail⟩)
        ⟨9, 1, .Stat, 78, 176, .NoError, .NoDetail⟩ =
      List.replicate 64 ⟨9, 1, .Stat, 78, 176, .NoError, .NoDetail⟩ :=
  ⟨c9_buffer_bound.1 [255, 255, 9, 1, 71, 78, 176, 0, 0] _ (by decide),
   c9_buffer_bound.2 _ _ (by decide)⟩



/-- Claim C7: appending an 11th entry to a 10-entry SJOG or IJOG builder
returns `MaximumDataReached` and leaves the builder — hence its build
output — unchanged. -/
theorem c7_jog_capacity :
    (∀ (m : MessageBuilderPositionSJOG) (mode : JogMode) (color : JogColor) (id : Nat),
        m.pos.data.length = 10 →
        (m.s_jog mode color id).1 = some .MaximumDataReached ∧
        (m.s_jog mode color id).2 = m ∧
        (m.s_jog mode color id).2.build = m.build) ∧
    (∀ (m : MessageBuilderPositionIJOG) (mode : JogMode) (color : JogColor)
        (playtime id : Nat),
        m.pos.length = 10 →
        (m.s_jog mode color playtime id).1 = some .MaximumDataReached ∧
        (m.s_jog mode color playtime id).2 = m ∧
        (m.s_jog mode color playtime id).2.build = m.build) := by
  constructor
  · intro m mode color id h
    simp [MessageBuilderPositionSJOG.s_jog, h]
  · intro m mode color playtime id h
    simp [MessageBuilderPositionIJOG.s_jog, h]

/-- Claim C7 witness: the capacity theorem applied to concrete 10-entry
SJOG and IJOG builders. -/
theorem c7_jog_capacity_witness :
    ((MessageBuilderPositionSJOG.s_jog
        ⟨1, ⟨List.replicate 10 ⟨.Normal 0, .Blue, 0⟩, 60⟩⟩
        (.Normal 0) .Blue 2).1 = some .MaximumDataReached ∧
     (MessageBuilderPositionSJOG.s_jog
        ⟨1, ⟨List.replicate 10 ⟨.Normal 0, .Blue, 0⟩, 60⟩⟩
        (.Normal 0) .Blue 2).2 = ⟨1, ⟨List.replicate 10 ⟨.Normal 0, .Blue, 0⟩, 60⟩⟩ ∧
     (MessageBuilderPositionSJOG.s_jog
        ⟨1, ⟨List.replicate 10 ⟨.Normal 0, .Blue, 0⟩, 60⟩⟩
        (.Normal 0) .Blue 2).2.build =
       MessageBuilderPositionSJOG.build ⟨1, ⟨List.replicate 10 ⟨.Normal 0, .Blue, 0⟩, 60⟩⟩) ∧
    ((MessageBuilderPositionIJOG.s_jog
        ⟨1, List.replicate 10 ⟨.Normal 0, .Blue, 0, 0⟩⟩
        (.Normal 0) .Blue 60 2).1 = some .MaximumDataReached ∧
     (MessageBuilderPositionIJOG.s_jog
        ⟨1, List.replicate 10 ⟨.Normal 0, .Blue, 0, 0⟩⟩
        (.Normal 0) .Blue 60 2).2 = ⟨1, List.replicate 10 ⟨.Normal 0, .Blue, 0, 0⟩⟩ ∧
     (MessageBuilderPositionIJOG.s_jog
        ⟨1, List.replicate 10 ⟨.Normal 0, .Blue, 0, 0⟩⟩
        (.Normal 0) .Blue 60 2).2.build =
       MessageBuilderPositionIJOG.build ⟨1, List.replicate 10 ⟨.Normal 0, .Blue, 0, 0⟩⟩) :=
  ⟨c7_jog_capacity.1 ⟨1, ⟨List.replicate 10 ⟨.Normal 0, .Blue, 0⟩, 60⟩⟩
     (.Normal 0) .Blue 2 (by decide),
   c7_jog_capacity.2 ⟨1, List.replicate 10 ⟨.Normal 0, .Blue, 0, 0⟩⟩
     (.Normal 0) .Blue 60 2 (by decide)⟩

/-- Claim C10: the jog data word is serialized verbatim — `Normal{position}`
and counter-clockwise `Continuous{speed}` pass the raw 16-bit value through
`associated_data`, the SJOG build emits it as two little-endian bytes with
no range check, clamping to 1023 happens only in the `Servo` facade
(`set_position`/`set_speed`), and a position with bit 14 set is
indistinguishable from a clockwise continuous command. -/
theorem c10_no_builder_clamp :
    (∀ v : Nat, JogMode.associated_data (.Normal v) = v) ∧
    (∀ s : Nat, JogMode.associated_data (.Continuous s .CounterClockwise) = s) ∧
    (∀ pid pt id v : Nat,
        (s_jog_new pid pt (.Normal v) .Blue id).build =
          some (specFrame pid 6 [pt, v % 256, (v >>> 8) % 256, 8, id])) ∧
    (∀ id p : Nat, Servo.set_position id p = Servo.set_position id (min p 1023)) ∧
    (∀ id s : Nat, Servo.set_speed id s = Servo.set_speed id (min s 1023)) ∧
    JogMode.associated_data (.Normal 16384) =
      JogMode.associated_data (.Continuous 0 .Clockwise) := by
  refine ⟨fun v => rfl, fun s => rfl, ?_, ?_, ?_, by decide⟩
  · intro pid pt id v
    have h1 : (s_jog_new pid pt (.Normal v) .Blue id).build =
        some (Packet.build ⟨pid, 6, [pt, v % 256, (v >>> 8) % 256, 8, id]⟩) := by
      simp [s_jog_new, MessageBuilderPositionSJOG.build, sjogPushEntry,
        Packet.push_data, JogMode.associated_data]
    rw [h1, Packet.build_spec _ (by simp)]
  · intro id p
    simp [Servo.set_position, Nat.min_assoc]
  · intro id s
    simp [Servo.set_speed, Nat.min_assoc]



/-- Claim C5 counterexample: the literal acknowledgement-shaped echo of the
encoded request `write_ram(0xFD, TorqueControl(0x60))` — same frame fields,
acknowledgement opcode, recomputed checksums, valid status pair appended —
produces NO decoded packet (the parser aborts on the first payload byte,
which is not a valid status-error pattern), so the round-trip claim fails
for write commands. -/
theorem c5_write_echo_counterexample :
    (write_ram 0xFD (.TorqueControl 0x60)).build =
      some [0xFF, 0xFF, 0x0A, 0xFD, 0x03, 0xA0, 0x5E, 0x34, 0x01, 0x60] ∧
    ACKReader.parse ACKReader.new c5WriteEcho =
      some { state := .Cmd 0 0, buffer := [] } :=
  ⟨by decide, by decide⟩

theorem parse_ram_ack1 (a : ReadableRamAddr) (pid d1 d2 : Nat)
    (hb : a.bytes = 1) (hlook : ReadableRamAddr.try_from a.toByte = some a) :
    ACKReader.parse ACKReader.new (ramReadAck pid a d1 d2) =
      some { state := .H1, buffer := [ramReadAckPacket pid a d1 d2] } := by
  simp [ramReadAck, ramReadAckPacket, hb, ACKReader.parse, ReaderState.step,
    commandOfByte, statusErrorOfByte, statusDetailOfByte,
    ReaderState.add_to_buffer, InternalCommand.inject_payload,
    ACKPacket.is_valid, xorDataBytes, Command.toByte, bufferPush, hlook,
    beq_self_eq_true, ACKReader.new, TRAME_READER_INTERNAL_BUFFER_SIZE]


theorem parse_ram_ack2 (a : ReadableRamAddr) (pid d1 d2 : Nat)
    (hb : a.bytes = 2) (hlook : ReadableRamAddr.try_from a.toByte = some a) :
    ACKReader.parse ACKReader.new (ramReadAck pid a d1 d2) =
      some { state := .H1, buffer := [ramReadAckPacket pid a d1 d2] } := by
  simp [ramReadAck, ramReadAckPacket, hb, ACKReader.parse, ReaderState.step,
    commandOfByte, statusErrorOfByte, statusDetailOfByte,
    ReaderState.add_to_buffer, InternalCommand.inject_payload,
    ACKPacket.is_valid, xorDataBytes, Command.toByte, bufferPush, hlook,
    beq_self_eq_true, ACKReader.new, TRAME_READER_INTERNAL_BUFFER_SIZE]

theorem parse_eep_ack1 (a : ReadableEEPAddr) (pid d1 d2 : Nat)
    (hb : a.bytes = 1) (hlook : ReadableEEPAddr.try_from a.toByte = some a) :
    ACKReader.parse ACKReader.new (eepReadAck pid a d1 d2) =
      some { state := .H1, buffer := [eepReadAckPacket pid a d1 d2] } := by
  simp [eepReadAck, eepReadAckPacket, hb, ACKReader.parse, ReaderState.step,
    commandOfByte, statusErrorOfByte, statusDetailOfByte,
    ReaderState.add_to_buffer, InternalCommand.inject_payload,
    ACKPacket.is_valid, xorDataBytes, Command.toByte, bufferPush, hlook,
    beq_self_eq_true, ACKReader.new, TRAME_READER_INTERNAL_BUFFER_SIZE]

theorem parse_eep_ack2 (a : ReadableEEPAddr) (pid d1 d2 : Nat)
    (hb : a.bytes = 2) (hlook : ReadableEEPAddr.try_from a.toByte = some a) :
    ACKReader.parse ACKReader.new (eepReadAck pid a d1 d2) =
      some { state := .H1, buffer := [eepReadAckPacket pid a d1 d2] } := by
  simp [eepReadAck, eepReadAckPacket, hb, ACKReader.parse, ReaderState.step,
    commandOfByte, statusErrorOfByte, statusDetailOfByte,
    ReaderState.add_to_buffer, InternalCommand.inject_payload,
    ACKPacket.is_valid, xorDataBytes, Command.toByte, bufferPush, hlook,
    beq_self_eq_true, ACKReader.new, TRAME_READER_INTERNAL_BUFFER_SIZE]

/-- Claim C5 (amended): the round-trip holds for register READ requests.
Encoding `read_ram`/`read_eep` with the defaulted transfer length yields a
frame whose payload is the address byte and the length, and feeding the
parser the well-formed acknowledgement echo of that request (same size
byte, id, address and length, acknowledgement opcode, recomputed checksums,
the answered data bytes and a valid status pair) produces exactly one
decoded packet that reproduces the command, the register address and the
requested length.  Non-read commands do not round-trip: their
acknowledgements carry no payload (see the counterexample). -/
theorem c5_read_roundtrip :
    (∀ (pid : Nat) (a : ReadableRamAddr),
        (read_ram pid a none).build = some (specFrame pid 4 [a.toByte, a.bytes])) ∧
    (∀ (pid : Nat) (a : ReadableEEPAddr),
        (read_eep pid a none).build = some (specFrame pid 2 [a.toByte, a.bytes])) ∧
    (∀ (a : ReadableRamAddr) (pid d1 d2 : Nat),
        ACKReader.parse ACKReader.new (ramReadAck pid a d1 d2) =
          some { state := .H1, buffer := [ramReadAckPacket pid a d1 d2] }) ∧
    (∀ (a : ReadableEEPAddr) (pid d1 d2 : Nat),
        ACKReader.parse ACKReader.new (eepReadAck pid a d1 d2) =
          some { state := .H1, buffer := [eepReadAckPacket pid a d1 d2] }) := by
  refine ⟨fun pid a => mem_build_spec _, fun pid a => mem_build_spec _, ?_, ?_⟩
  · intro a pid d1 d2
    cases a
    all_goals first
      | exact parse_ram_ack1 _ pid d1 d2 rfl rfl
      | exact parse_ram_ack2 _ pid d1 d2 rfl rfl
  · intro a pid d1 d2
    cases a
    all_goals first
      | exact parse_eep_ack1 _ pid d1 d2 rfl rfl
      | exact parse_eep_ack2 _ pid d1 d2 rfl rfl


end Drs
